import Mathlib

/-!
# Verification of the arabica atproto store core

Shallow embedding of the record codec, URI codec, reference resolver,
session cache and store facade of the arabica repository
(internal/atproto/{nsid,records,resolver,store}.go and the session cache),
with theorems checking the natural-language specification against it.

Modelling conventions:
* Go strings are Lean `String`; Go `int` is Lean `Int`; Go `float64` is
  modelled as `ℚ` (exact arithmetic; the code only multiplies/divides by 10).
* `time.Time` values that the code formats/parses are modelled by their
  canonical RFC3339 text (`GoTime := String`); `time.Time` values that the
  code only compares arithmetically (the cache timestamp) are modelled as
  `Int` nanoseconds.
* `map[string]interface{}` records are association lists `Rec` over a value
  type `Val` whose constructors mirror the dynamic Go types the code
  distinguishes with type assertions (`string`, `int`, `float64`,
  `[]interface{}`, `map[string]interface{}`, `[]map[string]interface{}`).
* fallible Go functions return `Except String` / `Option`; the remote
  repository client is an abstract record of response functions, and store
  operations additionally return the list of network operations they issued.
-/

namespace Arabica

/-- Dynamic JSON-compatible value held in a record
(`map[string]interface{}` in Go). The constructors mirror the concrete
dynamic types the source distinguishes with type assertions:
`str` = `string`, `int` = Go `int`, `num` = `float64`,
`arr` = `[]interface{}`, `map` = `map[string]interface{}` and
`mapArr` = `[]map[string]interface{}` (the type the Brew encoder builds
for pours, distinct from `[]interface{}` under Go type assertion). -/
inductive Val where
| str (s : String)
| int (n : Int)
| num (q : ℚ)
| arr (xs : List Val)
| map (m : List (String × Val))
| mapArr (ms : List (List (String × Val)))

/-- A record: string-keyed map of JSON-compatible values. -/
abbrev Rec := List (String × Val)

/-- Key lookup in a record (Go map indexing). -/
def recGet (r : Rec) (k : String) : Option Val :=
  match r with
  | [] => none
  | (k', v) :: rest => if k' = k then some v else recGet rest k

/-- Go type assertion `.(string)`. -/
def asString : Val → Option String
  | .str s => some s
  | _ => none

/-- Go type assertion `.(float64)`. -/
def asNum : Val → Option ℚ
  | .num q => some q
  | _ => none

/-- Go type assertion `.([]interface{})`. -/
def asArr : Val → Option (List Val)
  | .arr xs => some xs
  | _ => none

/-- Go type assertion `.(map[string]interface{})`. -/
def asMap : Val → Option Rec
  | .map m => some m
  | _ => none

/-- The Go idiom `v, _ := rec[k].(string)`: empty string when the key is
absent or the value is not a string. -/
def goStr (r : Rec) (k : String) : String :=
  match recGet r k with
  | some (.str s) => s
  | _ => ""

/-- Go `int(x)` truncation of a `float64` toward zero, on the `ℚ` model. -/
def goTrunc (q : ℚ) : Int :=
  if 0 ≤ q then ⌊q⌋ else ⌈q⌉

/-- `time.Time` modelled by its canonical RFC3339 text (UTC, whole
seconds), which is what `Format(time.RFC3339)` produces for the values
this code stores. -/
abbrev GoTime := String

/-- One ASCII digit. -/
def digitChar (c : Char) : Bool :=
  ('0' ≤ c) && (c ≤ '9')

/-- Shape check for canonical RFC3339 text `YYYY-MM-DDThh:mm:ssZ`;
model of the strings accepted by `time.Parse(time.RFC3339, ·)` that this
repository ever produces. -/
def isRFC3339 (s : String) : Bool :=
  match s.data with
  | [y1, y2, y3, y4, '-', m1, m2, '-', d1, d2, 'T',
     h1, h2, ':', n1, n2, ':', s1, s2, 'Z'] =>
    digitChar y1 && digitChar y2 && digitChar y3 && digitChar y4 &&
    digitChar m1 && digitChar m2 && digitChar d1 && digitChar d2 &&
    digitChar h1 && digitChar h2 && digitChar n1 && digitChar n2 &&
    digitChar s1 && digitChar s2
  | _ => false

/-- `t.Format(time.RFC3339)`: on the canonical-text model, the text itself. -/
def timeFormat (t : GoTime) : String := t

/-- `time.Parse(time.RFC3339, s)` on the canonical-text model. -/
def timeParse (s : String) : Option GoTime :=
  if isRFC3339 s then some s else none

/-! ## URI codec (internal/atproto/nsid.go) -/

/-- Base namespace for all arabica lexicons. -/
def NSIDBase : String := "social.arabica.alpha"

def NSIDBean : String := NSIDBase ++ ".bean"

def NSIDBrew : String := NSIDBase ++ ".brew"

def NSIDBrewer : String := NSIDBase ++ ".brewer"

def NSIDGrinder : String := NSIDBase ++ ".grinder"

def NSIDRoaster : String := NSIDBase ++ ".roaster"

/-- Maximum allowed length for a record key. -/
def MaxRKeyLength : Nat := 512

/-- ASCII alphanumeric, the Go regex class `[a-zA-Z0-9]`. -/
def alnumChar (c : Char) : Bool :=
  (('a' ≤ c) && (c ≤ 'z')) || (('A' ≤ c) && (c ≤ 'Z')) || (('0' ≤ c) && (c ≤ '9'))

/-- The Go regex class `[a-zA-Z0-9._:-]`. -/
def rkeyTailChar (c : Char) : Bool :=
  alnumChar c || (c == '.') || (c == '_') || (c == ':') || (c == '-')

/-- Match of the anchored regex `[a-zA-Z0-9][a-zA-Z0-9._:-]{0,511}`
against a whole string. -/
def rkeyRegexMatch (cs : List Char) : Bool :=
  match cs with
  | [] => false
  | c :: rest => alnumChar c && decide (rest.length ≤ 511) && rest.all rkeyTailChar

/-- `ValidateRKey` (nsid.go): checks an rkey against the AT Protocol
record-key grammar. -/
def ValidateRKey (rkey : String) : Bool :=
  if (rkey == "") || decide (rkey.length > MaxRKeyLength) then false
  else if (rkey == ".") || (rkey == "..") then false
  else rkeyRegexMatch rkey.data

/-- `BuildATURI` (nsid.go): `at://<did>/<collection>/<rkey>`. -/
def BuildATURI (did collection rkey : String) : String :=
  "at://" ++ did ++ "/" ++ collection ++ "/" ++ rkey

/-! ## AT-URI parsing (model of the external indigo `syntax.ParseATURI`) -/

/-- Parsed components of an AT-URI (resolver.go `ATURIComponents`). -/
structure ATURIComponents where
  did : String
  collection : String
  rkey : String
deriving DecidableEq

/-- Split a character list at every slash. -/
def splitSlash : List Char → List (List Char)
  | [] => [[]]
  | c :: cs =>
    if c = '/' then [] :: splitSlash cs
    else
      match splitSlash cs with
      | [] => [[c]]
      | g :: gs => (c :: g) :: gs

/-- Characters the external library accepts inside a DID. Excludes the
slash, so a DID never spans URI segments. -/
def didChar (c : Char) : Bool :=
  alnumChar c || (c == '.') || (c == '_') || (c == ':') || (c == '%') || (c == '-')

/-- Model of the external DID syntax check: `did:` followed by a
non-empty body of DID characters. -/
def didOK (cs : List Char) : Bool :=
  match cs with
  | 'd' :: 'i' :: 'd' :: ':' :: rest => !rest.isEmpty && rest.all didChar
  | _ => false

/-- Characters the external library accepts inside an NSID. -/
def nsidChar (c : Char) : Bool :=
  alnumChar c || (c == '.') || (c == '-')

/-- Model of the external NSID syntax check. -/
def nsidOK (cs : List Char) : Bool :=
  !cs.isEmpty && cs.all nsidChar

/-- `ResolveATURI` (resolver.go), built on the external
`syntax.ParseATURI`: requires the `at://` scheme, then either a bare
authority (empty collection/rkey) or authority/collection/rkey. -/
def ResolveATURI (uri : String) : Option ATURIComponents :=
  match uri.data with
  | 'a' :: 't' :: ':' :: '/' :: '/' :: rest =>
    match splitSlash rest with
    | [did] => if didOK did then some ⟨⟨did⟩, "", ""⟩ else none
    | [did, coll, rk] =>
      if didOK did && nsidOK coll && ValidateRKey ⟨rk⟩ then
        some ⟨⟨did⟩, ⟨coll⟩, ⟨rk⟩⟩
      else none
    | _ => none
  | _ => none

/-! ### Lemmas about the URI codec -/

theorem splitSlash_no_slash (a : List Char) (h : '/' ∉ a) : splitSlash a = [a] := by
  induction a with
  | nil => rfl
  | cons c cs ih =>
    have hc : ¬ c = '/' := fun hc => h (hc ▸ List.mem_cons_self c cs)
    have hcs : '/' ∉ cs := fun hm => h (List.mem_cons_of_mem c hm)
    simp [splitSlash, hc, ih hcs]

theorem splitSlash_append (a r : List Char) (h : '/' ∉ a) :
    splitSlash (a ++ '/' :: r) = a :: splitSlash r := by
  induction a with
  | nil => simp [splitSlash]
  | cons c cs ih =>
    have hc : ¬ c = '/' := fun hc => h (hc ▸ List.mem_cons_self c cs)
    have hcs : '/' ∉ cs := fun hm => h (List.mem_cons_of_mem c hm)
    have hstep := ih hcs
    simp only [List.cons_append, splitSlash, hc, if_false]
    rw [show cs.append ('/' :: r) = cs ++ '/' :: r from rfl, hstep]

theorem didChar_ne_slash (c : Char) (h : didChar c = true) : c ≠ '/' := by
  intro hc; subst hc; simp [didChar, alnumChar] at h

theorem didOK_no_slash (cs : List Char) (h : didOK cs = true) : '/' ∉ cs := by
  unfold didOK at h
  split at h
  next rest =>
    simp only [Bool.and_eq_true, List.all_eq_true] at h
    intro hm
    simp only [List.mem_cons] at hm
    rcases hm with h1 | h1 | h1 | h1 | h1
    · exact absurd h1 (by decide)
    · exact absurd h1 (by decide)
    · exact absurd h1 (by decide)
    · exact absurd h1 (by decide)
    · exact didChar_ne_slash _ (h.2 _ h1) rfl
  next => exact absurd h (by simp)

theorem nsidChar_ne_slash (c : Char) (h : nsidChar c = true) : c ≠ '/' := by
  intro hc; subst hc; simp [nsidChar, alnumChar] at h

theorem nsidOK_no_slash (cs : List Char) (h : nsidOK cs = true) : '/' ∉ cs := by
  simp only [nsidOK, Bool.and_eq_true, List.all_eq_true] at h
  intro hm
  exact nsidChar_ne_slash _ (h.2 _ hm) rfl

theorem rkeyTailChar_ne_slash (c : Char) (h : rkeyTailChar c = true) : c ≠ '/' := by
  intro hc; subst hc; simp [rkeyTailChar, alnumChar] at h

theorem alnumChar_rkeyTailChar (c : Char) (h : alnumChar c = true) :
    rkeyTailChar c = true := by
  simp [rkeyTailChar, h]

theorem rkeyRegexMatch_all (cs : List Char) (h : rkeyRegexMatch cs = true) :
    ∀ c ∈ cs, rkeyTailChar c = true := by
  match cs with
  | [] => simp [rkeyRegexMatch] at h
  | c :: rest =>
    simp only [rkeyRegexMatch, Bool.and_eq_true, List.all_eq_true] at h
    intro x hx
    simp only [List.mem_cons] at hx
    rcases hx with rfl | hx
    · exact alnumChar_rkeyTailChar _ h.1.1
    · exact h.2 _ hx

theorem ValidateRKey_no_slash (s : String) (h : ValidateRKey s = true) :
    '/' ∉ s.data := by
  unfold ValidateRKey at h
  split at h
  · exact absurd h (by simp)
  · split at h
    · exact absurd h (by simp)
    · intro hm
      exact rkeyTailChar_ne_slash _ (rkeyRegexMatch_all _ h _ hm) rfl

theorem data_append (a b : String) : (a ++ b).data = a.data ++ b.data := by
  cases a; cases b; rfl

/-- Shared round-trip lemma for the locator codec: parsing a built AT-URI
recovers the components, for syntactically valid components. -/
theorem aturi_roundtrip (did coll rkey : String)
    (hd : didOK did.data = true) (hc : nsidOK coll.data = true)
    (hk : ValidateRKey rkey = true) :
    ResolveATURI (BuildATURI did coll rkey) = some ⟨did, coll, rkey⟩ := by
  have hdata : (BuildATURI did coll rkey).data =
      'a' :: 't' :: ':' :: '/' :: '/' ::
        (did.data ++ '/' :: (coll.data ++ '/' :: rkey.data)) := by
    simp [BuildATURI, data_append]
  have h1 : splitSlash (did.data ++ '/' :: (coll.data ++ '/' :: rkey.data))
      = [did.data, coll.data, rkey.data] := by
    rw [splitSlash_append _ _ (didOK_no_slash _ hd),
        splitSlash_append _ _ (nsidOK_no_slash _ hc),
        splitSlash_no_slash _ (ValidateRKey_no_slash _ hk)]
  simp only [ResolveATURI, hdata, h1, hd, hc, hk, Bool.and_self, if_true]

/-- C6: for all valid (owner, collection, key) triples, parsing the
locator string built from them returns exactly the same triple:
`ResolveATURI (BuildATURI owner collection key) = some (owner, collection, key)`. -/
theorem locator_inverse (did coll rkey : String)
    (hd : didOK did.data = true) (hc : nsidOK coll.data = true)
    (hk : ValidateRKey rkey = true) :
    ResolveATURI (BuildATURI did coll rkey) = some ⟨did, coll, rkey⟩ :=
  aturi_roundtrip did coll rkey hd hc hk

/-- C6 witness: the round trip at a concrete valid triple. -/
theorem locator_inverse_witness :
    ResolveATURI (BuildATURI "did:plc:abc123" "social.arabica.alpha.bean" "3jxyabc")
      = some ⟨"did:plc:abc123", "social.arabica.alpha.bean", "3jxyabc"⟩ :=
  locator_inverse "did:plc:abc123" "social.arabica.alpha.bean" "3jxyabc"
    (by decide) (by decide) (by decide)

/-- C7: `ValidateRKey` accepts exactly the strings of 1 to 512 characters
that start with an alphanumeric character and contain only letters,
digits, '.', '_', ':' and '-', excluding the reserved "." and "..";
in particular "", ".", "..", a 513-character string and a string starting
with a non-alphanumeric character are rejected, and the 13-character
lowercase base32-like "3kfk4slgu6s2h" is accepted. -/
theorem rkey_validation :
    (∀ s : String, ValidateRKey s = true ↔
      (1 ≤ s.data.length ∧ s.data.length ≤ 512 ∧
       (∀ c, s.data.head? = some c → alnumChar c = true) ∧
       (∀ c ∈ s.data, rkeyTailChar c = true) ∧
       s ≠ "." ∧ s ≠ ".."))
    ∧ ValidateRKey "" = false
    ∧ ValidateRKey "." = false
    ∧ ValidateRKey ".." = false
    ∧ ValidateRKey ⟨List.replicate 513 'a'⟩ = false
    ∧ ValidateRKey "3kfk4slgu6s2h" = true
    ∧ ValidateRKey "-abc" = false := by
  refine ⟨?_, by decide, by decide, by decide, ?_, by decide, by decide⟩
  case refine_2 =>
    have hlen : (String.mk (List.replicate 513 'a')).length > MaxRKeyLength := by
      show (List.replicate 513 'a').length > 512
      rw [List.length_replicate]
      omega
    have hcond : ((String.mk (List.replicate 513 'a') == "") ||
        decide ((String.mk (List.replicate 513 'a')).length > MaxRKeyLength)) = true := by
      rw [Bool.or_eq_true]
      exact Or.inr (decide_eq_true hlen)
    unfold ValidateRKey
    rw [if_pos hcond]
  · intro s
    constructor
    · intro h
      unfold ValidateRKey at h
      by_cases h0 : ((s == "") || decide (s.length > MaxRKeyLength)) = true
      · rw [if_pos h0] at h; exact absurd h (by simp)
      · rw [if_neg h0] at h
        by_cases h1 : ((s == ".") || (s == "..")) = true
        · rw [if_pos h1] at h; exact absurd h (by simp)
        · rw [if_neg h1] at h
          simp only [Bool.or_eq_true, beq_iff_eq, decide_eq_true_eq, not_or] at h0 h1
          cases hsd : s.data with
          | nil =>
            exfalso
            exact h0.1 (by cases s with | mk d => simp at hsd; simp [hsd])
          | cons c rest =>
            rw [hsd] at h
            simp only [rkeyRegexMatch, Bool.and_eq_true, decide_eq_true_eq,
              List.all_eq_true] at h
            refine ⟨by simp, ?_, ?_, ?_, h1.1, h1.2⟩
            · simpa using Nat.succ_le_succ h.1.2
            · intro c0 hc0
              simp only [List.head?_cons, Option.some.injEq] at hc0
              exact hc0 ▸ h.1.1
            · intro x hx
              rcases List.mem_cons.mp hx with rfl | hx
              · exact alnumChar_rkeyTailChar _ h.1.1
              · exact h.2 _ hx
    · rintro ⟨h1, h2, h3, h4, h5, h6⟩
      cases hsd : s.data with
      | nil => rw [hsd] at h1; simp at h1
      | cons c rest =>
        have hsne : s ≠ "" := by
          intro he; rw [he] at hsd; simp at hsd
        have hlen : ¬ s.length > MaxRKeyLength := by
          have : s.length = s.data.length := rfl
          rw [this, hsd]
          rw [hsd] at h2
          simp only [MaxRKeyLength]
          omega
        have c1 : ((s == "") || decide (s.length > MaxRKeyLength)) = false := by
          simp [hsne, hlen]
        have c2 : ((s == ".") || (s == "..")) = false := by
          simp [h5, h6]
        have hr : rkeyRegexMatch s.data = true := by
          rw [hsd]
          simp only [rkeyRegexMatch, Bool.and_eq_true, decide_eq_true_eq,
            List.all_eq_true]
          refine ⟨⟨h3 c (by rw [hsd]; rfl), ?_⟩, ?_⟩
          · rw [hsd] at h2; simpa using h2
          · intro x hx
            exact h4 x (by rw [hsd]; exact List.mem_cons_of_mem c hx)
        unfold ValidateRKey
        rw [c1, c2]
        simpa using hr

/-! ## Domain entities (internal/models/models.go, atproto-relevant fields) -/

structure Roaster where
  rkey : String
  name : String
  location : String
  website : String
  createdAt : GoTime
deriving DecidableEq

structure Bean where
  rkey : String
  name : String
  origin : String
  roastLevel : String
  process : String
  description : String
  roasterRKey : String
  createdAt : GoTime
  roaster : Option Roaster
deriving DecidableEq

structure Grinder where
  rkey : String
  name : String
  grinderType : String
  burrType : String
  notes : String
  createdAt : GoTime
deriving DecidableEq

structure Brewer where
  rkey : String
  name : String
  description : String
  createdAt : GoTime
deriving DecidableEq

structure Pour where
  pourNumber : Int
  waterAmount : Int
  timeSeconds : Int
  createdAt : GoTime
deriving DecidableEq

structure Brew where
  rkey : String
  beanRKey : String
  method : String
  temperature : ℚ
  waterAmount : Int
  coffeeAmount : Int
  timeSeconds : Int
  grindSize : String
  grinderRKey : String
  brewerRKey : String
  tastingNotes : String
  rating : Int
  createdAt : GoTime
  bean : Option Bean
  grinderObj : Option Grinder
  brewerObj : Option Brewer
  pours : List Pour
deriving DecidableEq

/-! ## Record codec (internal/atproto/records.go) -/

/-- Conditionally inserted optional field of an encoded record: Go
`if cond { record[k] = v }`, written in prepend form so that key lookups
traverse one binding at a time. -/
def optField (cond : Bool) (k : String) (v : Val) (rest : Rec) : Rec :=
  if cond then (k, v) :: rest else rest

/-- The field map built by `BrewToRecord` (records.go). Temperature is
stored as a Go `int` of tenths of a degree; the pours array is built as
`[]map[string]interface{}` (`Val.mapArr`). -/
def brewRecFields (brew : Brew) (beanURI grinderURI brewerURI : String) : Rec :=
  ("$type", Val.str NSIDBrew) ::
  ("beanRef", Val.str beanURI) ::
  ("createdAt", Val.str (timeFormat brew.createdAt)) ::
  optField (decide (brew.method ≠ "")) "method" (Val.str brew.method)
  (optField (decide (0 < brew.temperature)) "temperature"
      (Val.int (goTrunc (brew.temperature * 10)))
  (optField (decide (0 < brew.waterAmount)) "waterAmount" (Val.int brew.waterAmount)
  (optField (decide (0 < brew.coffeeAmount)) "coffeeAmount" (Val.int brew.coffeeAmount)
  (optField (decide (0 < brew.timeSeconds)) "timeSeconds" (Val.int brew.timeSeconds)
  (optField (decide (brew.grindSize ≠ "")) "grindSize" (Val.str brew.grindSize)
  (optField (decide (grinderURI ≠ "")) "grinderRef" (Val.str grinderURI)
  (optField (decide (brewerURI ≠ "")) "brewerRef" (Val.str brewerURI)
  (optField (decide (brew.tastingNotes ≠ "")) "tastingNotes" (Val.str brew.tastingNotes)
  (optField (decide (0 < brew.rating)) "rating" (Val.int brew.rating)
  (optField (decide (brew.pours ≠ [])) "pours"
      (Val.mapArr (brew.pours.map fun p =>
        [("waterAmount", Val.int p.waterAmount),
         ("timeSeconds", Val.int p.timeSeconds)])) []))))))))))

/-- `BrewToRecord` (records.go): encodes a Brew; references must already be
AT-URIs, and the bean reference is required. -/
def BrewToRecord (brew : Brew) (beanURI grinderURI brewerURI : String) :
    Except String Rec :=
  if beanURI = "" then .error "beanRef (AT-URI) is required"
  else .ok (brewRecFields brew beanURI grinderURI brewerURI)

/-- `BeanToRecord` (records.go); the Go function's error is always nil. -/
def BeanToRecord (bean : Bean) (roasterURI : String) : Rec :=
  ("$type", Val.str NSIDBean) ::
  ("name", Val.str bean.name) ::
  ("createdAt", Val.str (timeFormat bean.createdAt)) ::
  optField (decide (bean.origin ≠ "")) "origin" (Val.str bean.origin)
  (optField (decide (bean.roastLevel ≠ "")) "roastLevel" (Val.str bean.roastLevel)
  (optField (decide (bean.process ≠ "")) "process" (Val.str bean.process)
  (optField (decide (bean.description ≠ "")) "description" (Val.str bean.description)
  (optField (decide (roasterURI ≠ "")) "roasterRef" (Val.str roasterURI) []))))

/-- `RoasterToRecord` (records.go); the Go function's error is always nil. -/
def RoasterToRecord (roaster : Roaster) : Rec :=
  ("$type", Val.str NSIDRoaster) ::
  ("name", Val.str roaster.name) ::
  ("createdAt", Val.str (timeFormat roaster.createdAt)) ::
  optField (decide (roaster.location ≠ "")) "location" (Val.str roaster.location)
  (optField (decide (roaster.website ≠ "")) "website" (Val.str roaster.website) [])

/-- `GrinderToRecord` (records.go); the Go function's error is always nil. -/
def GrinderToRecord (grinder : Grinder) : Rec :=
  ("$type", Val.str NSIDGrinder) ::
  ("name", Val.str grinder.name) ::
  ("createdAt", Val.str (timeFormat grinder.createdAt)) ::
  optField (decide (grinder.grinderType ≠ "")) "grinderType" (Val.str grinder.grinderType)
  (optField (decide (grinder.burrType ≠ "")) "burrType" (Val.str grinder.burrType)
  (optField (decide (grinder.notes ≠ "")) "notes" (Val.str grinder.notes) []))

/-- `BrewerToRecord` (records.go); the Go function's error is always nil. -/
def BrewerToRecord (brewer : Brewer) : Rec :=
  ("$type", Val.str NSIDBrewer) ::
  ("name", Val.str brewer.name) ::
  ("createdAt", Val.str (timeFormat brewer.createdAt)) ::
  optField (decide (brewer.description ≠ "")) "description" (Val.str brewer.description) []

/-- Record-key extraction shared by all decoders: parse the AT-URI when
one is given, else leave the key empty. -/
def rkeyFromURI (atURI : String) : Except String String :=
  if atURI = "" then .ok ""
  else
    match ResolveATURI atURI with
    | none => .error "invalid AT-URI"
    | some c => .ok c.rkey

/-- Required `createdAt` decoding shared by all decoders: the value must
be a string (`createdAt is required`) that parses as RFC3339
(`invalid createdAt format`). -/
def reqTime (record : Rec) : Except String GoTime :=
  match recGet record "createdAt" with
  | some (.str s) =>
    match timeParse s with
    | some t => .ok t
    | none => .error "invalid createdAt format"
  | _ => .error "createdAt is required"

/-- Go `if v, ok := rec[k].(float64); ok then int(v) else 0`. -/
def goIntField (r : Rec) (k : String) : Int :=
  match recGet r k with
  | some (.num q) => goTrunc q
  | _ => 0

/-- Temperature decoding: `temp / 10.0` when present as a float64, else 0. -/
def tempField (r : Rec) : ℚ :=
  match recGet r "temperature" with
  | some (.num q) => q / 10
  | _ => 0

/-- Pour-array decoding: 1-based numbering by array position. The Go loop
leaves a nil slot for a non-map element (`continue`); the model drops such
elements, which no claim distinguishes. -/
def decodePours : Nat → List Val → List Pour
  | _, [] => []
  | i, v :: rest =>
    match asMap v with
    | some m =>
      { pourNumber := (i : Int) + 1
      , waterAmount := goIntField m "waterAmount"
      , timeSeconds := goIntField m "timeSeconds"
      , createdAt := "" } :: decodePours (i + 1) rest
    | none => decodePours (i + 1) rest

/-- The pours block of `RecordToBrew`: present only when the `pours` key
holds a `[]interface\x7b\x7d` value. -/
def poursField (r : Rec) : List Pour :=
  match recGet r "pours" with
  | some (.arr xs) => decodePours 0 xs
  | _ => []

/-- `RecordToBrew` (records.go). The decoder requires a non-empty string
`beanRef` but does not store it; numeric fields are read with `float64`
type assertions; pours are read with a `[]interface{}` assertion. -/
def RecordToBrew (record : Rec) (atURI : String) : Except String Brew :=
  match rkeyFromURI atURI with
  | .error e => .error e
  | .ok rk =>
    if goStr record "beanRef" = "" then .error "beanRef is required"
    else
      match reqTime record with
      | .error e => .error e
      | .ok t =>
        .ok { rkey := rk
            , beanRKey := ""
            , method := goStr record "method"
            , temperature := tempField record
            , waterAmount := goIntField record "waterAmount"
            , coffeeAmount := goIntField record "coffeeAmount"
            , timeSeconds := goIntField record "timeSeconds"
            , grindSize := goStr record "grindSize"
            , grinderRKey := ""
            , brewerRKey := ""
            , tastingNotes := goStr record "tastingNotes"
            , rating := goIntField record "rating"
            , createdAt := t
            , bean := none
            , grinderObj := none
            , brewerObj := none
            , pours := poursField record }

/-- `RecordToBean` (records.go). -/
def RecordToBean (record : Rec) (atURI : String) : Except String Bean :=
  match rkeyFromURI atURI with
  | .error e => .error e
  | .ok rk =>
    if goStr record "name" = "" then .error "name is required"
    else
      match reqTime record with
      | .error e => .error e
      | .ok t =>
        .ok { rkey := rk
            , name := goStr record "name"
            , origin := goStr record "origin"
            , roastLevel := goStr record "roastLevel"
            , process := goStr record "process"
            , description := goStr record "description"
            , roasterRKey := ""
            , createdAt := t
            , roaster := none }

/-- `RecordToRoaster` (records.go). -/
def RecordToRoaster (record : Rec) (atURI : String) : Except String Roaster :=
  match rkeyFromURI atURI with
  | .error e => .error e
  | .ok rk =>
    if goStr record "name" = "" then .error "name is required"
    else
      match reqTime record with
      | .error e => .error e
      | .ok t =>
        .ok { rkey := rk
            , name := goStr record "name"
            , location := goStr record "location"
            , website := goStr record "website"
            , createdAt := t }

/-- `RecordToGrinder` (records.go). -/
def RecordToGrinder (record : Rec) (atURI : String) : Except String Grinder :=
  match rkeyFromURI atURI with
  | .error e => .error e
  | .ok rk =>
    if goStr record "name" = "" then .error "name is required"
    else
      match reqTime record with
      | .error e => .error e
      | .ok t =>
        .ok { rkey := rk
            , name := goStr record "name"
            , grinderType := goStr record "grinderType"
            , burrType := goStr record "burrType"
            , notes := goStr record "notes"
            , createdAt := t }

/-- `RecordToBrewer` (records.go). -/
def RecordToBrewer (record : Rec) (atURI : String) : Except String Brewer :=
  match rkeyFromURI atURI with
  | .error e => .error e
  | .ok rk =>
    if goStr record "name" = "" then .error "name is required"
    else
      match reqTime record with
      | .error e => .error e
      | .ok t =>
        .ok { rkey := rk
            , name := goStr record "name"
            , description := goStr record "description"
            , createdAt := t }

/-! ## JSON marshal/unmarshal normalization

Between `CreateRecord`/`PutRecord` and a later `GetRecord`, a record
passes through JSON: Go `int` values come back as `float64` and a
`[]map[string]interface{}` comes back as `[]interface{}` of
`map[string]interface{}`. -/

mutual

def jsonNorm : Val → Val
  | .str s => .str s
  | .int n => .num (n : ℚ)
  | .num q => .num q
  | .arr xs => .arr (jsonNormList xs)
  | .map m => .map (jsonNormRec m)
  | .mapArr ms => .arr (jsonNormRecList ms)

def jsonNormList : List Val → List Val
  | [] => []
  | v :: vs => jsonNorm v :: jsonNormList vs

def jsonNormRec : List (String × Val) → List (String × Val)
  | [] => []
  | (k, v) :: rest => (k, jsonNorm v) :: jsonNormRec rest

def jsonNormRecList : List (List (String × Val)) → List Val
  | [] => []
  | m :: ms => Val.map (jsonNormRec m) :: jsonNormRecList ms

end

/-! ## Remote repository client and network operations

The client (internal/atproto/client.go) is an external collaborator; it is
modelled as a record of response functions. `none`/`false` model a failed
network call (not found, transport error). The session identifier is an
opaque credential that never influences the data flow modelled here, so it
is omitted from the signatures. Every store/resolver operation additionally
returns the list of network operations it issued, in order. -/

structure Client where
  getRecord : String → String → String → Option Rec
  createRecord : String → String → Rec → Option String
  putRecord : String → String → String → Rec → Bool
  deleteRecord : String → String → String → Bool

inductive NetOp where
| get (did collection rkey : String)
| create (did collection : String) (record : Rec)
| put (did collection rkey : String) (record : Rec)
| delete (did collection rkey : String)

/-! ## Reference resolver (internal/atproto/resolver.go) -/

/-- `resolveRef` (resolver.go): the generic fetch-then-decode helper.
An empty locator resolves to no value; a collection mismatch, fetch
failure or decode failure is an error. -/
def resolveRefT {α : Type} (client : Client) (atURI : String)
    (expected : String) (convert : Rec → String → Except String α) :
    Except String (Option α) × List NetOp :=
  if atURI = "" then (.ok none, [])
  else
    match ResolveATURI atURI with
    | none => (.error "invalid AT-URI", [])
    | some comps =>
      if comps.collection ≠ expected then
        (.error ("expected " ++ expected ++ " collection, got " ++ comps.collection), [])
      else if ¬ didOK comps.did.data then (.error "invalid DID", [])
      else
        match client.getRecord comps.did comps.collection comps.rkey with
        | none =>
          (.error ("failed to fetch " ++ expected ++ " record"),
           [.get comps.did comps.collection comps.rkey])
        | some rec =>
          match convert rec atURI with
          | .error e =>
            (.error ("failed to convert " ++ expected ++ " record: " ++ e),
             [.get comps.did comps.collection comps.rkey])
          | .ok v => (.ok (some v), [.get comps.did comps.collection comps.rkey])

def ResolveBeanRef (client : Client) (atURI : String) :
    Except String (Option Bean) × List NetOp :=
  resolveRefT client atURI NSIDBean RecordToBean

def ResolveRoasterRef (client : Client) (atURI : String) :
    Except String (Option Roaster) × List NetOp :=
  resolveRefT client atURI NSIDRoaster RecordToRoaster

def ResolveGrinderRef (client : Client) (atURI : String) :
    Except String (Option Grinder) × List NetOp :=
  resolveRefT client atURI NSIDGrinder RecordToGrinder

def ResolveBrewerRef (client : Client) (atURI : String) :
    Except String (Option Brewer) × List NetOp :=
  resolveRefT client atURI NSIDBrewer RecordToBrewer

/-- `ResolveBeanRefWithRoaster` (resolver.go): resolves the bean, then
transitively resolves a roaster reference found in the raw record.
Roaster-resolution failure is swallowed: the bean is returned with its
roaster unset. -/
def ResolveBeanRefWithRoaster (client : Client) (atURI : String) :
    Except String (Option Bean) × List NetOp :=
  if atURI = "" then (.ok none, [])
  else
    match ResolveATURI atURI with
    | none => (.error "invalid AT-URI", [])
    | some comps =>
      if comps.collection ≠ NSIDBean then
        (.error ("expected " ++ NSIDBean ++ " collection, got " ++ comps.collection), [])
      else if ¬ didOK comps.did.data then (.error "invalid DID", [])
      else
        match client.getRecord comps.did comps.collection comps.rkey with
        | none =>
          (.error "failed to fetch bean record",
           [.get comps.did comps.collection comps.rkey])
        | some rec =>
          match RecordToBean rec atURI with
          | .error e =>
            (.error ("failed to convert bean record: " ++ e),
             [.get comps.did comps.collection comps.rkey])
          | .ok bean =>
            let roasterRef := goStr rec "roasterRef"
            if roasterRef = "" then
              (.ok (some bean), [.get comps.did comps.collection comps.rkey])
            else
              let bean1 :=
                match ResolveATURI roasterRef with
                | some rc => { bean with roasterRKey := rc.rkey }
                | none => bean
              match ResolveRoasterRef client roasterRef with
              | (.error _, ops2) =>
                (.ok (some { bean1 with roaster := none }),
                 .get comps.did comps.collection comps.rkey :: ops2)
              | (.ok r, ops2) =>
                (.ok (some { bean1 with roaster := r }),
                 .get comps.did comps.collection comps.rkey :: ops2)

/-- Brewer step of `ResolveBrewRefs`: on failure the field is left unset
and the error is returned to the caller. -/
def resolveBrewerStep (client : Client) (brew : Brew) (brewerRef : String)
    (ops0 : List NetOp) : (Brew × Option String) × List NetOp :=
  if brewerRef = "" then ((brew, none), ops0)
  else
    match ResolveBrewerRef client brewerRef with
    | (.error e, ops) =>
      (({ brew with brewerObj := none },
        some ("failed to resolve brewer reference: " ++ e)), ops0 ++ ops)
    | (.ok v, ops) => (({ brew with brewerObj := v }, none), ops0 ++ ops)

/-- Grinder step of `ResolveBrewRefs`: on failure the field is left unset,
the error is returned, and the brewer step is skipped. -/
def resolveGrinderStep (client : Client) (brew : Brew)
    (grinderRef brewerRef : String) (ops0 : List NetOp) :
    (Brew × Option String) × List NetOp :=
  if grinderRef = "" then resolveBrewerStep client brew brewerRef ops0
  else
    match ResolveGrinderRef client grinderRef with
    | (.error e, ops) =>
      (({ brew with grinderObj := none },
        some ("failed to resolve grinder reference: " ++ e)), ops0 ++ ops)
    | (.ok v, ops) =>
      resolveBrewerStep client { brew with grinderObj := v } brewerRef (ops0 ++ ops)

/-- `ResolveBrewRefs` (resolver.go): resolves bean (with nested roaster),
grinder and brewer references in sequence. Each failure sets the
corresponding field to nil, skips the remaining resolutions, and returns
the error (`some message`) to the caller. -/
def ResolveBrewRefs (client : Client) (brew : Brew)
    (beanRef grinderRef brewerRef : String) :
    (Brew × Option String) × List NetOp :=
  if beanRef = "" then resolveGrinderStep client brew grinderRef brewerRef []
  else
    match ResolveBeanRefWithRoaster client beanRef with
    | (.error e, ops) =>
      (({ brew with bean := none },
        some ("failed to resolve bean reference: " ++ e)), ops)
    | (.ok v, ops) =>
      resolveGrinderStep client { brew with bean := v } grinderRef brewerRef ops

/-! ## Store facade (internal/atproto/store.go) -/

structure CreatePourData where
  waterAmount : Int
  timeSeconds : Int
deriving DecidableEq

structure CreateBrewRequest where
  beanRKey : String
  method : String
  temperature : ℚ
  waterAmount : Int
  coffeeAmount : Int
  timeSeconds : Int
  grindSize : String
  grinderRKey : String
  brewerRKey : String
  tastingNotes : String
  rating : Int
  pours : List CreatePourData
deriving DecidableEq

structure UpdateBeanRequest where
  name : String
  origin : String
  roastLevel : String
  process : String
  description : String
  roasterRKey : String
deriving DecidableEq

structure UpdateRoasterRequest where
  name : String
  location : String
  website : String
deriving DecidableEq

structure UpdateGrinderRequest where
  name : String
  grinderType : String
  burrType : String
  notes : String
deriving DecidableEq

structure UpdateBrewerRequest where
  name : String
  description : String
deriving DecidableEq

/-- The `models.Brew` value that `CreateBrew`/`UpdateBrewByRKey` build from
a request: all fields are copied from the request except `CoffeeAmount`
(which store.go does not copy, leaving it zero), and `CreatedAt`, which is
supplied by the caller (now, or the preserved original). -/
def reqToBrewModel (req : CreateBrewRequest) (createdAt : GoTime) : Brew :=
  { rkey := ""
  , beanRKey := req.beanRKey
  , method := req.method
  , temperature := req.temperature
  , waterAmount := req.waterAmount
  , coffeeAmount := 0
  , timeSeconds := req.timeSeconds
  , grindSize := req.grindSize
  , grinderRKey := req.grinderRKey
  , brewerRKey := req.brewerRKey
  , tastingNotes := req.tastingNotes
  , rating := req.rating
  , createdAt := createdAt
  , bean := none
  , grinderObj := none
  , brewerObj := none
  , pours := req.pours.map fun p =>
      { pourNumber := 0, waterAmount := p.waterAmount
      , timeSeconds := p.timeSeconds, createdAt := "" } }

/-- The rkey-extraction block of `GetBrewByRKey` (store.go): sets the
brew's own rkey and fills `BeanRKey`/`GrinderRKey`/`BrewerRKey` from
whichever reference AT-URIs parse. -/
def brewRefKeys (rec : Rec) (rkey : String) (brew0 : Brew) : Brew :=
  let brew1 := { brew0 with rkey := rkey }
  let beanRef := goStr rec "beanRef"
  let grinderRef := goStr rec "grinderRef"
  let brewerRef := goStr rec "brewerRef"
  let brew2 :=
    if beanRef = "" then brew1
    else
      match ResolveATURI beanRef with
      | some c => { brew1 with beanRKey := c.rkey }
      | none => brew1
  let brew3 :=
    if grinderRef = "" then brew2
    else
      match ResolveATURI grinderRef with
      | some c => { brew2 with grinderRKey := c.rkey }
      | none => brew2
  if brewerRef = "" then brew3
  else
    match ResolveATURI brewerRef with
    | some c => { brew3 with brewerRKey := c.rkey }
    | none => brew3

/-- `GetBrewByRKey` (store.go): fetch, decode, extract reference rkeys,
then resolve references; a resolution error is logged and discarded, the
brew is returned regardless. -/
def GetBrewByRKey (client : Client) (did rkey : String) :
    Except String Brew × List NetOp :=
  match client.getRecord did NSIDBrew rkey with
  | none => (.error "failed to get brew record", [.get did NSIDBrew rkey])
  | some rec =>
    match RecordToBrew rec (BuildATURI did NSIDBrew rkey) with
    | .error e =>
      (.error ("failed to convert brew record: " ++ e), [.get did NSIDBrew rkey])
    | .ok brew0 =>
      match ResolveBrewRefs client (brewRefKeys rec rkey brew0)
          (goStr rec "beanRef") (goStr rec "grinderRef") (goStr rec "brewerRef") with
      | ((b, _e), ops) => (.ok b, .get did NSIDBrew rkey :: ops)

/-- `CreateBrew` (store.go): an empty bean key fails before any network
call; otherwise encode, create, parse the returned locator, then
best-effort resolve references (failure swallowed). -/
def CreateBrew (client : Client) (did : String) (req : CreateBrewRequest)
    (now : GoTime) : Except String Brew × List NetOp :=
  if req.beanRKey = "" then (.error "bean_rkey is required", [])
  else
    let beanURI := BuildATURI did NSIDBean req.beanRKey
    let grinderURI :=
      if req.grinderRKey = "" then "" else BuildATURI did NSIDGrinder req.grinderRKey
    let brewerURI :=
      if req.brewerRKey = "" then "" else BuildATURI did NSIDBrewer req.brewerRKey
    let brewModel := reqToBrewModel req now
    match BrewToRecord brewModel beanURI grinderURI brewerURI with
    | .error e => (.error ("failed to convert brew to record: " ++ e), [])
    | .ok rec =>
      match client.createRecord did NSIDBrew rec with
      | none => (.error "failed to create brew record", [.create did NSIDBrew rec])
      | some uri =>
        match ResolveATURI uri with
        | none => (.error "failed to parse returned AT-URI", [.create did NSIDBrew rec])
        | some comps =>
          match ResolveBrewRefs client { brewModel with rkey := comps.rkey }
              beanURI grinderURI brewerURI with
          | ((b, _e), ops) => (.ok b, .create did NSIDBrew rec :: ops)

/-- `UpdateBrewByRKey` (store.go): read the existing brew solely to
preserve its `createdAt`, rebuild the record from the request, and replace
it with a `PutRecord`. -/
def UpdateBrewByRKey (client : Client) (did rkey : String)
    (req : CreateBrewRequest) : Except String Unit × List NetOp :=
  if req.beanRKey = "" then (.error "bean_rkey is required", [])
  else
    let beanURI := BuildATURI did NSIDBean req.beanRKey
    let grinderURI :=
      if req.grinderRKey = "" then "" else BuildATURI did NSIDGrinder req.grinderRKey
    let brewerURI :=
      if req.brewerRKey = "" then "" else BuildATURI did NSIDBrewer req.brewerRKey
    match GetBrewByRKey client did rkey with
    | (.error e, ops) => (.error ("failed to get existing brew: " ++ e), ops)
    | (.ok existing, ops) =>
      match BrewToRecord (reqToBrewModel req existing.createdAt)
          beanURI grinderURI brewerURI with
      | .error e => (.error ("failed to convert brew to record: " ++ e), ops)
      | .ok rec =>
        if client.putRecord did NSIDBrew rkey rec
        then (.ok (), ops ++ [.put did NSIDBrew rkey rec])
        else (.error "failed to update brew record", ops ++ [.put did NSIDBrew rkey rec])

/-- Prefix test `roasterRef[:5] == "at://"` used by `GetBeanByRKey`. -/
def hasATPrefix (s : String) : Bool :=
  match s.data with
  | 'a' :: 't' :: ':' :: '/' :: '/' :: _ => true
  | _ => false

/-- Prefix test `roasterRef[:4] == "did:"` used by `GetBeanByRKey`. -/
def hasDIDPrefix (s : String) : Bool :=
  match s.data with
  | 'd' :: 'i' :: 'd' :: ':' :: _ => true
  | _ => false

/-- `GetBeanByRKey` (store.go): fetch, decode, then best-effort resolve a
roaster reference that looks like a valid AT-URI (failure logged and
swallowed). -/
def GetBeanByRKey (client : Client) (did rkey : String) :
    Except String Bean × List NetOp :=
  match client.getRecord did NSIDBean rkey with
  | none => (.error "failed to get bean record", [.get did NSIDBean rkey])
  | some rec =>
    match RecordToBean rec (BuildATURI did NSIDBean rkey) with
    | .error e =>
      (.error ("failed to convert bean record: " ++ e), [.get did NSIDBean rkey])
    | .ok bean0 =>
      let bean1 := { bean0 with rkey := rkey }
      let roasterRef := goStr rec "roasterRef"
      if roasterRef = "" then (.ok bean1, [.get did NSIDBean rkey])
      else
        let bean2 :=
          match ResolveATURI roasterRef with
          | some c => { bean1 with roasterRKey := c.rkey }
          | none => bean1
        if decide (roasterRef.length > 10) &&
            (hasATPrefix roasterRef || hasDIDPrefix roasterRef) then
          match ResolveRoasterRef client roasterRef with
          | (.ok r, ops) => (.ok { bean2 with roaster := r }, .get did NSIDBean rkey :: ops)
          | (.error _, ops) =>
            (.ok { bean2 with roaster := none }, .get did NSIDBean rkey :: ops)
        else (.ok bean2, [.get did NSIDBean rkey])

/-- `UpdateBeanByRKey` (store.go). -/
def UpdateBeanByRKey (client : Client) (did rkey : String)
    (req : UpdateBeanRequest) : Except String Unit × List NetOp :=
  match GetBeanByRKey client did rkey with
  | (.error e, ops) => (.error ("failed to get existing bean: " ++ e), ops)
  | (.ok existing, ops) =>
    let roasterURI :=
      if req.roasterRKey = "" then "" else BuildATURI did NSIDRoaster req.roasterRKey
    let rec1 := BeanToRecord
      { rkey := "", name := req.name, origin := req.origin
      , roastLevel := req.roastLevel, process := req.process
      , description := req.description, roasterRKey := req.roasterRKey
      , createdAt := existing.createdAt, roaster := none } roasterURI
    if client.putRecord did NSIDBean rkey rec1
    then (.ok (), ops ++ [.put did NSIDBean rkey rec1])
    else (.error "failed to update bean record", ops ++ [.put did NSIDBean rkey rec1])

/-- `GetRoasterByRKey` (store.go). -/
def GetRoasterByRKey (client : Client) (did rkey : String) :
    Except String Roaster × List NetOp :=
  match client.getRecord did NSIDRoaster rkey with
  | none => (.error "failed to get roaster record", [.get did NSIDRoaster rkey])
  | some rec =>
    match RecordToRoaster rec (BuildATURI did NSIDRoaster rkey) with
    | .error e =>
      (.error ("failed to convert roaster record: " ++ e), [.get did NSIDRoaster rkey])
    | .ok r => (.ok { r with rkey := rkey }, [.get did NSIDRoaster rkey])

/-- `UpdateRoasterByRKey` (store.go). -/
def UpdateRoasterByRKey (client : Client) (did rkey : String)
    (req : UpdateRoasterRequest) : Except String Unit × List NetOp :=
  match GetRoasterByRKey client did rkey with
  | (.error e, ops) => (.error ("failed to get existing roaster: " ++ e), ops)
  | (.ok existing, ops) =>
    let rec1 := RoasterToRecord
      { rkey := "", name := req.name, location := req.location
      , website := req.website, createdAt := existing.createdAt }
    if client.putRecord did NSIDRoaster rkey rec1
    then (.ok (), ops ++ [.put did NSIDRoaster rkey rec1])
    else (.error "failed to update roaster record", ops ++ [.put did NSIDRoaster rkey rec1])

/-- `GetGrinderByRKey` (store.go). -/
def GetGrinderByRKey (client : Client) (did rkey : String) :
    Except String Grinder × List NetOp :=
  match client.getRecord did NSIDGrinder rkey with
  | none => (.error "failed to get grinder record", [.get did NSIDGrinder rkey])
  | some rec =>
    match RecordToGrinder rec (BuildATURI did NSIDGrinder rkey) with
    | .error e =>
      (.error ("failed to convert grinder record: " ++ e), [.get did NSIDGrinder rkey])
    | .ok g => (.ok { g with rkey := rkey }, [.get did NSIDGrinder rkey])

/-- `UpdateGrinderByRKey` (store.go). -/
def UpdateGrinderByRKey (client : Client) (did rkey : String)
    (req : UpdateGrinderRequest) : Except String Unit × List NetOp :=
  match GetGrinderByRKey client did rkey with
  | (.error e, ops) => (.error ("failed to get existing grinder: " ++ e), ops)
  | (.ok existing, ops) =>
    let rec1 := GrinderToRecord
      { rkey := "", name := req.name, grinderType := req.grinderType
      , burrType := req.burrType, notes := req.notes
      , createdAt := existing.createdAt }
    if client.putRecord did NSIDGrinder rkey rec1
    then (.ok (), ops ++ [.put did NSIDGrinder rkey rec1])
    else (.error "failed to update grinder record", ops ++ [.put did NSIDGrinder rkey rec1])

/-- `GetBrewerByRKey` (store.go). -/
def GetBrewerByRKey (client : Client) (did rkey : String) :
    Except String Brewer × List NetOp :=
  match client.getRecord did NSIDBrewer rkey with
  | none => (.error "failed to get brewer record", [.get did NSIDBrewer rkey])
  | some rec =>
    match RecordToBrewer rec (BuildATURI did NSIDBrewer rkey) with
    | .error e =>
      (.error ("failed to convert brewer record: " ++ e), [.get did NSIDBrewer rkey])
    | .ok b => (.ok { b with rkey := rkey }, [.get did NSIDBrewer rkey])

/-- `UpdateBrewerByRKey` (store.go). -/
def UpdateBrewerByRKey (client : Client) (did rkey : String)
    (req : UpdateBrewerRequest) : Except String Unit × List NetOp :=
  match GetBrewerByRKey client did rkey with
  | (.error e, ops) => (.error ("failed to get existing brewer: " ++ e), ops)
  | (.ok existing, ops) =>
    let rec1 := BrewerToRecord
      { rkey := "", name := req.name, description := req.description
      , createdAt := existing.createdAt }
    if client.putRecord did NSIDBrewer rkey rec1
    then (.ok (), ops ++ [.put did NSIDBrewer rkey rec1])
    else (.error "failed to update brewer record", ops ++ [.put did NSIDBrewer rkey rec1])

/-! ## Session cache (cache.go)

`time.Time` is modelled as `Int` nanoseconds here (the cache only compares
timestamps arithmetically); `time.Now()` is an explicit `now` parameter.
Go nil slices are `none`. The `sync.RWMutex`-guarded
`map[string]*UserCache` is modelled as a function from session identifiers
to optional entries. -/

/-- `CacheTTL = 2 * time.Minute`, in nanoseconds. -/
def CacheTTL : Int := 120000000000

structure UserCache where
  beans : Option (List Bean)
  roasters : Option (List Roaster)
  grinders : Option (List Grinder)
  brewers : Option (List Brewer)
  brews : Option (List Brew)
  timestamp : Int

/-- `(*UserCache).IsValid` on a possibly-nil pointer:
`time.Since(c.Timestamp) < CacheTTL`. -/
def cacheIsValid (c : Option UserCache) (now : Int) : Bool :=
  match c with
  | none => false
  | some c => decide (now - c.timestamp < CacheTTL)

/-- `(*UserCache).clone`: shallow copy; a nil receiver becomes an empty
entry stamped with the current time. -/
def cacheClone (c : Option UserCache) (now : Int) : UserCache :=
  match c with
  | none =>
    { beans := none, roasters := none, grinders := none
    , brewers := none, brews := none, timestamp := now }
  | some c => c

/-- The session-keyed map of cache entries. -/
def SessionCache : Type := String → Option UserCache

/-- Map write `sc.caches[sessionID] = v`. -/
def scSet (m : SessionCache) (sessionID : String) (v : UserCache) : SessionCache :=
  fun k => if k = sessionID then some v else m k

/-- `SetBeans`: copy-on-write replacement of the beans slice, stamping the
entry with the current time. -/
def SetBeans (m : SessionCache) (sessionID : String)
    (beans : Option (List Bean)) (now : Int) : SessionCache :=
  scSet m sessionID { cacheClone (m sessionID) now with beans := beans, timestamp := now }

/-- `SetRoasters`. -/
def SetRoasters (m : SessionCache) (sessionID : String)
    (roasters : Option (List Roaster)) (now : Int) : SessionCache :=
  scSet m sessionID { cacheClone (m sessionID) now with roasters := roasters, timestamp := now }

/-- `SetGrinders`. -/
def SetGrinders (m : SessionCache) (sessionID : String)
    (grinders : Option (List Grinder)) (now : Int) : SessionCache :=
  scSet m sessionID { cacheClone (m sessionID) now with grinders := grinders, timestamp := now }

/-- `SetBrewers`. -/
def SetBrewers (m : SessionCache) (sessionID : String)
    (brewers : Option (List Brewer)) (now : Int) : SessionCache :=
  scSet m sessionID { cacheClone (m sessionID) now with brewers := brewers, timestamp := now }

/-- `SetBrews`. -/
def SetBrews (m : SessionCache) (sessionID : String)
    (brews : Option (List Brew)) (now : Int) : SessionCache :=
  scSet m sessionID { cacheClone (m sessionID) now with brews := brews, timestamp := now }

/-- `InvalidateBeans`: clears the beans slice of that session's entry, if
there is one. -/
def InvalidateBeans (m : SessionCache) (sessionID : String) : SessionCache :=
  match m sessionID with
  | none => m
  | some c => scSet m sessionID { c with beans := none }

/-- `InvalidateRoasters`: clears the roasters slice and, cascading, the
beans slice of that session's entry. -/
def InvalidateRoasters (m : SessionCache) (sessionID : String) : SessionCache :=
  match m sessionID with
  | none => m
  | some c => scSet m sessionID { c with roasters := none, beans := none }

/-- `InvalidateGrinders`. -/
def InvalidateGrinders (m : SessionCache) (sessionID : String) : SessionCache :=
  match m sessionID with
  | none => m
  | some c => scSet m sessionID { c with grinders := none }

/-- `InvalidateBrewers`. -/
def InvalidateBrewers (m : SessionCache) (sessionID : String) : SessionCache :=
  match m sessionID with
  | none => m
  | some c => scSet m sessionID { c with brewers := none }

/-- `InvalidateBrews`. -/
def InvalidateBrews (m : SessionCache) (sessionID : String) : SessionCache :=
  match m sessionID with
  | none => m
  | some c => scSet m sessionID { c with brews := none }

/-! ## Lookup and normalization toolkit -/

theorem recGet_cons_eq (k : String) (v : Val) (r : Rec) :
    recGet ((k, v) :: r) k = some v := by
  simp [recGet]

theorem recGet_cons_ne (k' k : String) (v : Val) (r : Rec) (h : k' ≠ k) :
    recGet ((k', v) :: r) k = recGet r k := by
  simp [recGet, h]

theorem recGet_optField_ne (c : Bool) (k v rest k') (h : k ≠ k') :
    recGet (optField c k v rest) k' = recGet rest k' := by
  cases c <;> simp [optField, recGet, h]

theorem recGet_optField_eq (c : Bool) (k v rest) :
    recGet (optField c k v rest) k = if c then some v else recGet rest k := by
  cases c <;> simp [optField, recGet]

theorem jsonNormRec_cons (k : String) (v : Val) (rest : Rec) :
    jsonNormRec ((k, v) :: rest) = (k, jsonNorm v) :: jsonNormRec rest := by
  simp [jsonNormRec]

theorem jsonNormRec_optField (c : Bool) (k v rest) :
    jsonNormRec (optField c k v rest) = optField c k (jsonNorm v) (jsonNormRec rest) := by
  cases c <;> simp [optField, jsonNormRec]

theorem jsonNormRec_nil : jsonNormRec [] = [] := rfl

theorem buildATURI_data (d c k : String) :
    (BuildATURI d c k).data =
      'a' :: 't' :: ':' :: '/' :: '/' :: (d.data ++ '/' :: (c.data ++ '/' :: k.data)) := by
  simp [BuildATURI, data_append]

theorem buildATURI_ne_empty (d c k : String) : BuildATURI d c k ≠ "" := by
  intro h
  have h2 := congrArg String.data h
  rw [buildATURI_data] at h2
  simp at h2

/-! ## Cache claims -/

/-- C4: with a cache entry present, invalidating roasters clears the
roasters and beans slices and leaves grinders, brewers, brews (and the
timestamp) unchanged; invalidating any other single collection clears only
that collection's slice. -/
theorem invalidate_collection_frame (m : SessionCache) (sid : String)
    (c : UserCache) (h : m sid = some c) :
    InvalidateRoasters m sid sid = some { c with roasters := none, beans := none }
    ∧ InvalidateBeans m sid sid = some { c with beans := none }
    ∧ InvalidateGrinders m sid sid = some { c with grinders := none }
    ∧ InvalidateBrewers m sid sid = some { c with brewers := none }
    ∧ InvalidateBrews m sid sid = some { c with brews := none } := by
  unfold InvalidateRoasters InvalidateBeans InvalidateGrinders InvalidateBrewers
    InvalidateBrews scSet
  rw [h]
  simp

/-- C4 witness: invalidation at a concrete one-session cache. -/
theorem invalidate_collection_frame_witness :
    InvalidateRoasters
      (scSet (fun _ => none) "s1"
        { beans := some [], roasters := some [], grinders := some []
        , brewers := some [], brews := some [], timestamp := 5 }) "s1" "s1"
      = some { beans := none, roasters := none, grinders := some []
             , brewers := some [], brews := some [], timestamp := 5 } :=
  (invalidate_collection_frame
    (scSet (fun _ => none) "s1"
      { beans := some [], roasters := some [], grinders := some []
      , brewers := some [], brews := some [], timestamp := 5 }) "s1"
    { beans := some [], roasters := some [], grinders := some []
    , brewers := some [], brews := some [], timestamp := 5 } (by rfl)).1

/-- C9: every per-collection cache write stamps the entry with the time of
the call while keeping the other collections, and validity of the whole
entry is judged from that single fresh timestamp alone. -/
theorem set_collection_restamps (m : SessionCache) (sid : String)
    (c : UserCache) (now now' : Int) (h : m sid = some c) :
    (∀ v, SetBeans m sid v now sid = some { c with beans := v, timestamp := now }
      ∧ cacheIsValid (SetBeans m sid v now sid) now' = decide (now' - now < CacheTTL))
    ∧ (∀ v, SetRoasters m sid v now sid = some { c with roasters := v, timestamp := now }
      ∧ cacheIsValid (SetRoasters m sid v now sid) now' = decide (now' - now < CacheTTL))
    ∧ (∀ v, SetGrinders m sid v now sid = some { c with grinders := v, timestamp := now }
      ∧ cacheIsValid (SetGrinders m sid v now sid) now' = decide (now' - now < CacheTTL))
    ∧ (∀ v, SetBrewers m sid v now sid = some { c with brewers := v, timestamp := now }
      ∧ cacheIsValid (SetBrewers m sid v now sid) now' = decide (now' - now < CacheTTL))
    ∧ (∀ v, SetBrews m sid v now sid = some { c with brews := v, timestamp := now }
      ∧ cacheIsValid (SetBrews m sid v now sid) now' = decide (now' - now < CacheTTL)) := by
  unfold SetBeans SetRoasters SetGrinders SetBrewers SetBrews scSet cacheClone
    cacheIsValid
  rw [h]
  simp

/-- C9 witness: a stale entry (set at time 0, read at two minutes plus)
becomes valid for a full TTL again after a single `SetBrews`. -/
theorem set_collection_restamps_witness :
    cacheIsValid
      (scSet (fun _ => none) "s1"
        { beans := some [], roasters := none, grinders := none
        , brewers := none, brews := none, timestamp := 0 } "s1") 130000000000 = false
    ∧ SetBrews
        (scSet (fun _ => none) "s1"
          { beans := some [], roasters := none, grinders := none
          , brewers := none, brews := none, timestamp := 0 }) "s1" (some [])
        130000000000 "s1"
      = some { beans := some [], roasters := none, grinders := none
             , brewers := none, brews := some [], timestamp := 130000000000 }
    ∧ cacheIsValid
        (SetBrews
          (scSet (fun _ => none) "s1"
            { beans := some [], roasters := none, grinders := none
            , brewers := none, brews := none, timestamp := 0 }) "s1" (some [])
          130000000000 "s1") 130000000000
      = decide ((130000000000 : Int) - 130000000000 < CacheTTL) :=
  ⟨by decide,
   ((set_collection_restamps
      (scSet (fun _ => none) "s1"
        { beans := some [], roasters := none, grinders := none
        , brewers := none, brews := none, timestamp := 0 }) "s1"
      { beans := some [], roasters := none, grinders := none
      , brewers := none, brews := none, timestamp := 0 }
      130000000000 130000000000 (by rfl)).2.2.2.2 (some [])).1,
   ((set_collection_restamps
      (scSet (fun _ => none) "s1"
        { beans := some [], roasters := none, grinders := none
        , brewers := none, brews := none, timestamp := 0 }) "s1"
      { beans := some [], roasters := none, grinders := none
      , brewers := none, brews := none, timestamp := 0 }
      130000000000 130000000000 (by rfl)).2.2.2.2 (some [])).2⟩

/-! ## Create with missing required reference (C5) -/

/-- C5: creating a Brew whose bean record key is empty fails with the
missing-reference error and issues no network operation at all. -/
theorem create_brew_missing_reference (client : Client) (did : String)
    (req : CreateBrewRequest) (now : GoTime) (h : req.beanRKey = "") :
    CreateBrew client did req now = (.error "bean_rkey is required", []) := by
  unfold CreateBrew
  rw [if_pos h]

/-- C5 witness: a concrete empty-bean-key create against an arbitrary
concrete client returns the error and an empty operation trace. -/
theorem create_brew_missing_reference_witness :
    CreateBrew
      ⟨fun _ _ _ => none, fun _ _ _ => none, fun _ _ _ _ => false, fun _ _ _ => false⟩
      "did:plc:abc123"
      { beanRKey := "", method := "V60", temperature := 93.5
      , waterAmount := 300, coffeeAmount := 18, timeSeconds := 180
      , grindSize := "Medium", grinderRKey := "g1", brewerRKey := "b1"
      , tastingNotes := "", rating := 4, pours := [] }
      "2025-01-10T12:00:00Z"
      = (.error "bean_rkey is required", []) :=
  create_brew_missing_reference _ _ _ _ (by rfl)

/-! ## Required-string-field rejection (C10) -/

/-- The three shapes of a bad required string field: absent, present with a
non-string value, or present as the empty string. -/
def badReqField (r : Rec) (k : String) : Prop :=
  recGet r k = none ∨ (∃ v, recGet r k = some v ∧ asString v = none)
    ∨ recGet r k = some (.str "")

theorem goStr_eq_empty_of_bad (r : Rec) (k : String) (h : badReqField r k) :
    goStr r k = "" := by
  rcases h with h | ⟨v, hv, hs⟩ | h
  · simp [goStr, h]
  · rw [goStr, hv]
    cases v <;> simp_all [asString]
  · simp [goStr, h]

/-- C10: for every entity decoder, a required string field (name, or
beanRef for Brew) that is absent, present with a non-string value, or
present as the empty string is rejected with the same required-field
error, provided the record's own locator parses (or is empty). -/
theorem decode_required_field :
    (∀ (r : Rec) (atURI rk : String), rkeyFromURI atURI = .ok rk →
      badReqField r "beanRef" → RecordToBrew r atURI = .error "beanRef is required")
    ∧ (∀ (r : Rec) (atURI rk : String), rkeyFromURI atURI = .ok rk →
      badReqField r "name" → RecordToBean r atURI = .error "name is required")
    ∧ (∀ (r : Rec) (atURI rk : String), rkeyFromURI atURI = .ok rk →
      badReqField r "name" → RecordToRoaster r atURI = .error "name is required")
    ∧ (∀ (r : Rec) (atURI rk : String), rkeyFromURI atURI = .ok rk →
      badReqField r "name" → RecordToGrinder r atURI = .error "name is required")
    ∧ (∀ (r : Rec) (atURI rk : String), rkeyFromURI atURI = .ok rk →
      badReqField r "name" → RecordToBrewer r atURI = .error "name is required") := by
  refine ⟨?_, ?_, ?_, ?_, ?_⟩ <;>
    intro r atURI rk hrk hbad <;>
    [unfold RecordToBrew; unfold RecordToBean; unfold RecordToRoaster;
     unfold RecordToGrinder; unfold RecordToBrewer] <;>
    rw [hrk, goStr_eq_empty_of_bad r _ hbad] <;>
    simp

/-- C10 witness: concrete records exercising all three bad shapes against
one decoder each. -/
theorem decode_required_field_witness :
    RecordToBrew [("createdAt", Val.str "2025-01-10T12:00:00Z")] ""
      = .error "beanRef is required"
    ∧ RecordToBean [("name", Val.int 5)] "" = .error "name is required"
    ∧ RecordToRoaster [("name", Val.str "")] "" = .error "name is required"
    ∧ RecordToGrinder [] "" = .error "name is required"
    ∧ RecordToBrewer [("name", Val.num 2)] "" = .error "name is required" :=
  ⟨decode_required_field.1 _ "" "" (by rfl) (Or.inl (by rfl)),
   decode_required_field.2.1 _ "" "" (by rfl)
     (Or.inr (Or.inl ⟨Val.int 5, by rfl, by rfl⟩)),
   decode_required_field.2.2.1 _ "" "" (by rfl) (Or.inr (Or.inr (by rfl))),
   decode_required_field.2.2.2.1 _ "" "" (by rfl) (Or.inl (by rfl)),
   decode_required_field.2.2.2.2 _ "" "" (by rfl)
     (Or.inr (Or.inl ⟨Val.num 2, by rfl, by rfl⟩))⟩

/-! ## Resolution-failure policy (C2, C3) -/

/-- `ResolveBrewRefs` when bean resolution fails: the brew's `Bean` field
is set to nil and the wrapped error is returned to the caller. -/
theorem resolveBrewRefs_bean_fail (client : Client) (beanRef msg : String)
    (ops1 : List NetOp) (hne : beanRef ≠ "")
    (hfail : ResolveBeanRefWithRoaster client beanRef = (.error msg, ops1))
    (brew : Brew) (g w : String) :
    ResolveBrewRefs client brew beanRef g w
      = (({ brew with bean := none },
          some ("failed to resolve bean reference: " ++ msg)), ops1) := by
  unfold ResolveBrewRefs
  rw [if_neg hne, hfail]

/-- `resolveGrinderStep` when grinder resolution fails: `GrinderObj` is
set to nil, the brewer step is skipped, and the wrapped error is
returned. -/
theorem resolveGrinderStep_fail (client : Client) (grinderRef msg : String)
    (ops2 : List NetOp) (hgne : grinderRef ≠ "")
    (hgrind : ResolveGrinderRef client grinderRef = (.error msg, ops2))
    (brew : Brew) (w : String) (ops0 : List NetOp) :
    resolveGrinderStep client brew grinderRef w ops0
      = (({ brew with grinderObj := none },
          some ("failed to resolve grinder reference: " ++ msg)), ops0 ++ ops2) := by
  unfold resolveGrinderStep
  rw [if_neg hgne, hgrind]

/-- `ResolveBrewRefs` when the bean resolves but grinder resolution
fails: `Bean` is populated, `GrinderObj` is set to nil, the brewer step is
skipped, and the wrapped grinder error is returned to the caller. -/
theorem resolveBrewRefs_grinder_fail (client : Client)
    (beanRef grinderRef msg : String) (bean : Bean) (ops1 ops2 : List NetOp)
    (hbne : beanRef ≠ "")
    (hbean : ResolveBeanRefWithRoaster client beanRef = (.ok (some bean), ops1))
    (hgne : grinderRef ≠ "")
    (hgrind : ResolveGrinderRef client grinderRef = (.error msg, ops2))
    (brew : Brew) (w : String) :
    ResolveBrewRefs client brew beanRef grinderRef w
      = (({ brew with bean := some bean, grinderObj := none },
          some ("failed to resolve grinder reference: " ++ msg)), ops1 ++ ops2) := by
  unfold ResolveBrewRefs
  rw [if_neg hbne, hbean]
  exact resolveGrinderStep_fail client grinderRef msg ops2 hgne hgrind
    { brew with bean := some bean } w ops1

/-- C3 (amended): when the brew record itself fetches and decodes but
resolving its bean reference fails, `GetBrewByRKey` does not propagate the
failure: it returns the Brew with `Bean` unset and no error. The failure
is fatal only inside `ResolveBrewRefs`, whose error the store logs and
discards. -/
theorem bean_resolution_failure_swallowed
    (client : Client) (did rkey : String) (rec : Rec) (brew0 : Brew)
    (msg : String) (ops1 : List NetOp)
    (hrec : client.getRecord did NSIDBrew rkey = some rec)
    (hdec : RecordToBrew rec (BuildATURI did NSIDBrew rkey) = .ok brew0)
    (hne : goStr rec "beanRef" ≠ "")
    (hfail : ResolveBeanRefWithRoaster client (goStr rec "beanRef")
      = (.error msg, ops1)) :
    (GetBrewByRKey client did rkey).fst.map Brew.bean = .ok none
    ∧ ∀ (b : Brew) (g w : String),
        (ResolveBrewRefs client b (goStr rec "beanRef") g w).fst.snd
          = some ("failed to resolve bean reference: " ++ msg) := by
  constructor
  · unfold GetBrewByRKey
    simp only [hrec, hdec]
    rw [resolveBrewRefs_bean_fail client _ msg ops1 hne hfail]
    rfl
  · intro b g w
    rw [resolveBrewRefs_bean_fail client _ msg ops1 hne hfail]

/-- C2 (amended): when the bean reference resolves but the grinder
reference fails, `ResolveBrewRefs` does return an error to its immediate
caller (leaving `GrinderObj` unset and skipping the brewer step), but
`GetBrewByRKey` logs and discards that error, so the read completes with
`Bean` populated, `Grinder` unset and no error to the store's caller. -/
theorem grinder_resolution_failure_nonfatal
    (client : Client) (did rkey : String) (rec : Rec) (brew0 : Brew) (bean : Bean)
    (msg : String) (ops1 ops2 : List NetOp)
    (hrec : client.getRecord did NSIDBrew rkey = some rec)
    (hdec : RecordToBrew rec (BuildATURI did NSIDBrew rkey) = .ok brew0)
    (hbne : goStr rec "beanRef" ≠ "")
    (hbean : ResolveBeanRefWithRoaster client (goStr rec "beanRef")
      = (.ok (some bean), ops1))
    (hgne : goStr rec "grinderRef" ≠ "")
    (hgrind : ResolveGrinderRef client (goStr rec "grinderRef")
      = (.error msg, ops2)) :
    (GetBrewByRKey client did rkey).fst.map (fun b => (b.bean, b.grinderObj))
      = .ok (some bean, none)
    ∧ ∀ (b : Brew) (w : String),
        (ResolveBrewRefs client b (goStr rec "beanRef") (goStr rec "grinderRef") w).fst.snd
          = some ("failed to resolve grinder reference: " ++ msg) := by
  constructor
  · unfold GetBrewByRKey
    simp only [hrec, hdec]
    rw [resolveBrewRefs_grinder_fail client _ _ _ bean ops1 ops2 hbne hbean hgne hgrind]
    rfl
  · intro b w
    rw [resolveBrewRefs_grinder_fail client _ _ _ bean ops1 ops2 hbne hbean hgne hgrind]

/-! ### Concrete scenario for C2/C3 -/

def demoDID : String := "did:plc:abc123"

def demoBeanRec : Rec :=
  [("name", Val.str "Ethiopia"), ("createdAt", Val.str "2025-01-10T12:00:00Z")]

def demoBrewRec : Rec :=
  [("beanRef", Val.str (BuildATURI demoDID NSIDBean "x1")),
   ("grinderRef", Val.str (BuildATURI demoDID NSIDGrinder "g1")),
   ("createdAt", Val.str "2025-01-10T12:00:00Z")]

/-- The bean obtained by decoding `demoBeanRec` at its own locator. -/
def demoBean : Bean :=
  { rkey := "x1", name := "Ethiopia", origin := "", roastLevel := ""
  , process := "", description := "", roasterRKey := ""
  , createdAt := "2025-01-10T12:00:00Z", roaster := none }

/-- The brew obtained by decoding `demoBrewRec` (before resolution). -/
def demoBrew0 : Brew :=
  { rkey := "b1", beanRKey := "", method := "", temperature := 0
  , waterAmount := 0, coffeeAmount := 0, timeSeconds := 0, grindSize := ""
  , grinderRKey := "", brewerRKey := "", tastingNotes := "", rating := 0
  , createdAt := "2025-01-10T12:00:00Z", bean := none, grinderObj := none
  , brewerObj := none, pours := [] }

/-- Client for the C2 scenario: the brew and bean records exist, the
referenced grinder record has been deleted. -/
def clientGrinderDeleted : Client :=
  { getRecord := fun _ c k =>
      if c = NSIDBean ∧ k = "x1" then some demoBeanRec
      else if c = NSIDBrew ∧ k = "b1" then some demoBrewRec
      else none
  , createRecord := fun _ _ _ => none
  , putRecord := fun _ _ _ _ => false
  , deleteRecord := fun _ _ _ => false }

/-- Client for the C3 scenario: the brew record exists, the referenced
bean record has been deleted. -/
def clientBeanDeleted : Client :=
  { getRecord := fun _ c k =>
      if c = NSIDBrew ∧ k = "b1" then some demoBrewRec else none
  , createRecord := fun _ _ _ => none
  , putRecord := fun _ _ _ _ => false
  , deleteRecord := fun _ _ _ => false }

set_option maxHeartbeats 2000000 in
/-- C2 counterexample: with the bean resolving and the grinder record
deleted, `ResolveBrewRefs` does NOT complete without raising an error to
its caller — it returns the grinder-resolution error (while the bean field
is populated). -/
theorem resolve_brew_refs_error_cex :
    (ResolveBrewRefs clientGrinderDeleted demoBrew0
        (BuildATURI demoDID NSIDBean "x1") (BuildATURI demoDID NSIDGrinder "g1")
        "").fst.snd.isSome = true
    ∧ (ResolveBrewRefs clientGrinderDeleted demoBrew0
        (BuildATURI demoDID NSIDBean "x1") (BuildATURI demoDID NSIDGrinder "g1")
        "").fst.fst.bean = some demoBean
    ∧ (ResolveBrewRefs clientGrinderDeleted demoBrew0
        (BuildATURI demoDID NSIDBean "x1") (BuildATURI demoDID NSIDGrinder "g1")
        "").fst.fst.grinderObj = none := by
  refine ⟨rfl, rfl, rfl⟩

set_option maxHeartbeats 2000000 in
/-- C2 witness: the amended claim at the concrete deleted-grinder client. -/
theorem grinder_resolution_failure_nonfatal_witness :
    (GetBrewByRKey clientGrinderDeleted demoDID "b1").fst.map
        (fun b => (b.bean, b.grinderObj)) = .ok (some demoBean, none)
    ∧ ∀ (b : Brew) (w : String),
        (ResolveBrewRefs clientGrinderDeleted b (goStr demoBrewRec "beanRef")
            (goStr demoBrewRec "grinderRef") w).fst.snd
          = some ("failed to resolve grinder reference: "
              ++ "failed to fetch social.arabica.alpha.grinder record") :=
  grinder_resolution_failure_nonfatal clientGrinderDeleted demoDID "b1"
    demoBrewRec demoBrew0 demoBean
    "failed to fetch social.arabica.alpha.grinder record"
    [.get demoDID NSIDBean "x1"] [.get demoDID NSIDGrinder "g1"]
    (by rfl) (by rfl) (by decide) (by rfl) (by decide) (by rfl)

set_option maxHeartbeats 2000000 in
/-- C3 counterexample: with the bean record deleted, the read does NOT
return an error — it returns the Brew with `Bean` unset. -/
theorem bean_failure_read_cex :
    (GetBrewByRKey clientBeanDeleted demoDID "b1").fst.map Brew.bean = .ok none := by
  rfl

set_option maxHeartbeats 2000000 in
/-- C3 witness: the amended claim at the concrete deleted-bean client. -/
theorem bean_resolution_failure_swallowed_witness :
    (GetBrewByRKey clientBeanDeleted demoDID "b1").fst.map Brew.bean = .ok none
    ∧ ∀ (b : Brew) (g w : String),
        (ResolveBrewRefs clientBeanDeleted b (goStr demoBrewRec "beanRef") g w).fst.snd
          = some ("failed to resolve bean reference: "
              ++ "failed to fetch bean record") :=
  bean_resolution_failure_swallowed clientBeanDeleted demoDID "b1"
    demoBrewRec demoBrew0 "failed to fetch bean record"
    [.get demoDID NSIDBean "x1"]
    (by rfl) (by rfl) (by decide) (by rfl)

/-! ## Update preserves createdAt and replaces everything else (C8) -/

/-- C8: for every update by record key whose prior read succeeds, the
record written by the `PutRecord` call is exactly the encoding of the
caller's request fields together with the previously stored record's
`createdAt` — a full replace whose only dependence on the old record is
the preserved `createdAt` timestamp, which the written record carries. -/
theorem update_preserves_created_at :
    (∀ (client : Client) (did rkey : String) (req : CreateBrewRequest)
        (existing : Brew) (ops1 : List NetOp) (rec1 : Rec),
      GetBrewByRKey client did rkey = (.ok existing, ops1) →
      req.beanRKey ≠ "" →
      BrewToRecord (reqToBrewModel req existing.createdAt)
          (BuildATURI did NSIDBean req.beanRKey)
          (if req.grinderRKey = "" then "" else BuildATURI did NSIDGrinder req.grinderRKey)
          (if req.brewerRKey = "" then "" else BuildATURI did NSIDBrewer req.brewerRKey)
        = .ok rec1 →
      (UpdateBrewByRKey client did rkey req).snd = ops1 ++ [.put did NSIDBrew rkey rec1]
      ∧ recGet rec1 "createdAt" = some (.str (timeFormat existing.createdAt)))
    ∧ (∀ (client : Client) (did rkey : String) (req : UpdateBeanRequest)
        (existing : Bean) (ops1 : List NetOp),
      GetBeanByRKey client did rkey = (.ok existing, ops1) →
      (UpdateBeanByRKey client did rkey req).snd
        = ops1 ++ [.put did NSIDBean rkey (BeanToRecord
            { rkey := "", name := req.name, origin := req.origin
            , roastLevel := req.roastLevel, process := req.process
            , description := req.description, roasterRKey := req.roasterRKey
            , createdAt := existing.createdAt, roaster := none }
            (if req.roasterRKey = "" then "" else BuildATURI did NSIDRoaster req.roasterRKey))]
      ∧ recGet (BeanToRecord
            { rkey := "", name := req.name, origin := req.origin
            , roastLevel := req.roastLevel, process := req.process
            , description := req.description, roasterRKey := req.roasterRKey
            , createdAt := existing.createdAt, roaster := none }
            (if req.roasterRKey = "" then "" else BuildATURI did NSIDRoaster req.roasterRKey))
          "createdAt" = some (.str (timeFormat existing.createdAt)))
    ∧ (∀ (client : Client) (did rkey : String) (req : UpdateRoasterRequest)
        (existing : Roaster) (ops1 : List NetOp),
      GetRoasterByRKey client did rkey = (.ok existing, ops1) →
      (UpdateRoasterByRKey client did rkey req).snd
        = ops1 ++ [.put did NSIDRoaster rkey (RoasterToRecord
            { rkey := "", name := req.name, location := req.location
            , website := req.website, createdAt := existing.createdAt })]
      ∧ recGet (RoasterToRecord
            { rkey := "", name := req.name, location := req.location
            , website := req.website, createdAt := existing.createdAt })
          "createdAt" = some (.str (timeFormat existing.createdAt)))
    ∧ (∀ (client : Client) (did rkey : String) (req : UpdateGrinderRequest)
        (existing : Grinder) (ops1 : List NetOp),
      GetGrinderByRKey client did rkey = (.ok existing, ops1) →
      (UpdateGrinderByRKey client did rkey req).snd
        = ops1 ++ [.put did NSIDGrinder rkey (GrinderToRecord
            { rkey := "", name := req.name, grinderType := req.grinderType
            , burrType := req.burrType, notes := req.notes
            , createdAt := existing.createdAt })]
      ∧ recGet (GrinderToRecord
            { rkey := "", name := req.name, grinderType := req.grinderType
            , burrType := req.burrType, notes := req.notes
            , createdAt := existing.createdAt })
          "createdAt" = some (.str (timeFormat existing.createdAt)))
    ∧ (∀ (client : Client) (did rkey : String) (req : UpdateBrewerRequest)
        (existing : Brewer) (ops1 : List NetOp),
      GetBrewerByRKey client did rkey = (.ok existing, ops1) →
      (UpdateBrewerByRKey client did rkey req).snd
        = ops1 ++ [.put did NSIDBrewer rkey (BrewerToRecord
            { rkey := "", name := req.name, description := req.description
            , createdAt := existing.createdAt })]
      ∧ recGet (BrewerToRecord
            { rkey := "", name := req.name, description := req.description
            , createdAt := existing.createdAt })
          "createdAt" = some (.str (timeFormat existing.createdAt))) := by
  refine ⟨?_, ?_, ?_, ?_, ?_⟩
  · intro client did rkey req existing ops1 rec1 hget hbne hrec1
    constructor
    · unfold UpdateBrewByRKey
      rw [if_neg hbne]
      simp only [hget, hrec1]
      cases hput : client.putRecord did NSIDBrew rkey rec1 <;> simp [hput]
    · rw [BrewToRecord, if_neg (buildATURI_ne_empty did NSIDBean req.beanRKey)] at hrec1
      have hr := (Except.ok.injEq _ _).mp hrec1
      rw [← hr]
      simp [brewRecFields, recGet, reqToBrewModel]
  · intro client did rkey req existing ops1 hget
    refine ⟨?_, by simp [BeanToRecord, recGet]⟩
    unfold UpdateBeanByRKey
    simp only [hget]
    cases hput : client.putRecord did NSIDBean rkey _ <;> simp [hput]
  · intro client did rkey req existing ops1 hget
    refine ⟨?_, by simp [RoasterToRecord, recGet]⟩
    unfold UpdateRoasterByRKey
    simp only [hget]
    cases hput : client.putRecord did NSIDRoaster rkey _ <;> simp [hput]
  · intro client did rkey req existing ops1 hget
    refine ⟨?_, by simp [GrinderToRecord, recGet]⟩
    unfold UpdateGrinderByRKey
    simp only [hget]
    cases hput : client.putRecord did NSIDGrinder rkey _ <;> simp [hput]
  · intro client did rkey req existing ops1 hget
    refine ⟨?_, by simp [BrewerToRecord, recGet]⟩
    unfold UpdateBrewerByRKey
    simp only [hget]
    cases hput : client.putRecord did NSIDBrewer rkey _ <;> simp [hput]

/-- Concrete client for the C8 witness: one roaster record exists and
every write succeeds. -/
def clientUpdate : Client :=
  { getRecord := fun _ c k =>
      if c = NSIDRoaster ∧ k = "r1"
      then some [("name", Val.str "Counter"), ("createdAt", Val.str "2025-01-10T12:00:00Z")]
      else none
  , createRecord := fun _ _ _ => none
  , putRecord := fun _ _ _ _ => true
  , deleteRecord := fun _ _ _ => false }

set_option maxHeartbeats 1000000 in
/-- C8 witness: a concrete roaster update writes the request's fields with
the previously stored createdAt. -/
theorem update_preserves_created_at_witness :
    (UpdateRoasterByRKey clientUpdate demoDID "r1"
        { name := "New Name", location := "Durham", website := "" }).snd
      = [NetOp.get demoDID NSIDRoaster "r1"]
        ++ [NetOp.put demoDID NSIDRoaster "r1" (RoasterToRecord
            { rkey := "", name := "New Name", location := "Durham", website := ""
            , createdAt := "2025-01-10T12:00:00Z" })]
    ∧ recGet (RoasterToRecord
        { rkey := "", name := "New Name", location := "Durham", website := ""
        , createdAt := "2025-01-10T12:00:00Z" }) "createdAt"
      = some (.str (timeFormat "2025-01-10T12:00:00Z")) :=
  update_preserves_created_at.2.2.1 clientUpdate demoDID "r1"
    { name := "New Name", location := "Durham", website := "" }
    { rkey := "r1", name := "Counter", location := "", website := ""
    , createdAt := "2025-01-10T12:00:00Z" }
    [NetOp.get demoDID NSIDRoaster "r1"] (by rfl)

/-! ## Round-trip of the record codec (C1) -/

theorem goTrunc_intCast (n : Int) : goTrunc ((n : ℚ)) = n := by
  unfold goTrunc
  by_cases h : (0 : ℚ) ≤ (n : ℚ) <;> simp [h]

theorem goTrunc_nonneg (q : ℚ) (h : 0 ≤ q) : goTrunc q = ⌊q⌋ := by
  unfold goTrunc
  rw [if_pos h]

theorem recGet_jsonNormRec (r : Rec) (k : String) :
    recGet (jsonNormRec r) k = (recGet r k).map jsonNorm := by
  induction r with
  | nil => rfl
  | cons p rest ih =>
    obtain ⟨k', v⟩ := p
    by_cases h : k' = k <;> simp [jsonNormRec, recGet, h, ih]

theorem goStr_jsonNormRec (r : Rec) (k : String) :
    goStr (jsonNormRec r) k = goStr r k := by
  unfold goStr
  rw [recGet_jsonNormRec]
  cases hv : recGet r k with
  | none => rfl
  | some v => cases v <;> simp [jsonNorm]

/-- Pour renumbering performed by the decoder: positional 1-based numbers,
zeroed timestamps, amounts preserved. -/
def renumberPours (i : Nat) : List Pour → List Pour
  | [] => []
  | p :: rest =>
    { pourNumber := (i : Int) + 1, waterAmount := p.waterAmount
    , timeSeconds := p.timeSeconds, createdAt := "" } :: renumberPours (i + 1) rest

theorem decodePours_norm (ps : List Pour) :
    ∀ i, decodePours i (jsonNormRecList (ps.map fun p =>
        [("waterAmount", Val.int p.waterAmount),
         ("timeSeconds", Val.int p.timeSeconds)]))
      = renumberPours i ps := by
  induction ps with
  | nil => intro i; rfl
  | cons p rest ih =>
    intro i
    simp only [List.map_cons, jsonNormRecList, jsonNormRec, jsonNorm, jsonNormRec_nil,
      decodePours, asMap, renumberPours]
    rw [ih (i + 1)]
    simp [goIntField, recGet, goTrunc_intCast]

/-- Round trip for the Bean codec (after JSON normalization, which is the
identity on its all-string record). The record key is recovered from the
locator; the roaster reference key and joined roaster are outside the
codec. -/
theorem roundtripBean (b : Bean) (u did : String)
    (hname : b.name ≠ "") (hts : isRFC3339 b.createdAt = true)
    (hdid : didOK did.data = true) (hrk : ValidateRKey b.rkey = true) :
    RecordToBean (jsonNormRec (BeanToRecord b u)) (BuildATURI did NSIDBean b.rkey)
      = .ok { b with roasterRKey := "", roaster := none } := by
  have hloc := aturi_roundtrip did NSIDBean b.rkey hdid (by decide) hrk
  have hn : goStr (jsonNormRec (BeanToRecord b u)) "name" = b.name := by
    rw [goStr_jsonNormRec]
    simp [goStr, BeanToRecord, recGet]
  have hct : reqTime (jsonNormRec (BeanToRecord b u)) = .ok b.createdAt := by
    unfold reqTime
    rw [recGet_jsonNormRec]
    have hcg : recGet (BeanToRecord b u) "createdAt"
        = some (.str (timeFormat b.createdAt)) := by
      simp [BeanToRecord, recGet]
    rw [hcg]
    simp [jsonNorm, timeParse, timeFormat, hts]
  have horigin : goStr (jsonNormRec (BeanToRecord b u)) "origin" = b.origin := by
    rw [goStr_jsonNormRec]
    by_cases h : b.origin = "" <;>
      simp [goStr, BeanToRecord, recGet, recGet_optField_ne, recGet_optField_eq, h]
  have hroast : goStr (jsonNormRec (BeanToRecord b u)) "roastLevel" = b.roastLevel := by
    rw [goStr_jsonNormRec]
    by_cases h : b.roastLevel = "" <;>
      simp [goStr, BeanToRecord, recGet, recGet_optField_ne, recGet_optField_eq, h]
  have hproc : goStr (jsonNormRec (BeanToRecord b u)) "process" = b.process := by
    rw [goStr_jsonNormRec]
    by_cases h : b.process = "" <;>
      simp [goStr, BeanToRecord, recGet, recGet_optField_ne, recGet_optField_eq, h]
  have hdesc : goStr (jsonNormRec (BeanToRecord b u)) "description" = b.description := by
    rw [goStr_jsonNormRec]
    by_cases h : b.description = "" <;>
      simp [goStr, BeanToRecord, recGet, recGet_optField_ne, recGet_optField_eq, h]
  unfold RecordToBean rkeyFromURI
  rw [if_neg (buildATURI_ne_empty did NSIDBean b.rkey), hloc, hn, hct]
  simp [hname, horigin, hroast, hproc, hdesc]

/-- Round trip for the Roaster codec. -/
theorem roundtripRoaster (b : Roaster) (did : String)
    (hname : b.name ≠ "") (hts : isRFC3339 b.createdAt = true)
    (hdid : didOK did.data = true) (hrk : ValidateRKey b.rkey = true) :
    RecordToRoaster (jsonNormRec (RoasterToRecord b)) (BuildATURI did NSIDRoaster b.rkey)
      = .ok b := by
  have hloc := aturi_roundtrip did NSIDRoaster b.rkey hdid (by decide) hrk
  have hn : goStr (jsonNormRec (RoasterToRecord b)) "name" = b.name := by
    rw [goStr_jsonNormRec]
    simp [goStr, RoasterToRecord, recGet]
  have hct : reqTime (jsonNormRec (RoasterToRecord b)) = .ok b.createdAt := by
    unfold reqTime
    rw [recGet_jsonNormRec]
    have hcg : recGet (RoasterToRecord b) "createdAt"
        = some (.str (timeFormat b.createdAt)) := by
      simp [RoasterToRecord, recGet]
    rw [hcg]
    simp [jsonNorm, timeParse, timeFormat, hts]
  have hlocn : goStr (jsonNormRec (RoasterToRecord b)) "location" = b.location := by
    rw [goStr_jsonNormRec]
    by_cases h : b.location = "" <;>
      simp [goStr, RoasterToRecord, recGet, recGet_optField_ne, recGet_optField_eq, h]
  have hweb : goStr (jsonNormRec (RoasterToRecord b)) "website" = b.website := by
    rw [goStr_jsonNormRec]
    by_cases h : b.website = "" <;>
      simp [goStr, RoasterToRecord, recGet, recGet_optField_ne, recGet_optField_eq, h]
  unfold RecordToRoaster rkeyFromURI
  rw [if_neg (buildATURI_ne_empty did NSIDRoaster b.rkey), hloc, hn, hct]
  simp [hname, hlocn, hweb]

/-- Round trip for the Grinder codec. -/
theorem roundtripGrinder (b : Grinder) (did : String)
    (hname : b.name ≠ "") (hts : isRFC3339 b.createdAt = true)
    (hdid : didOK did.data = true) (hrk : ValidateRKey b.rkey = true) :
    RecordToGrinder (jsonNormRec (GrinderToRecord b)) (BuildATURI did NSIDGrinder b.rkey)
      = .ok b := by
  have hloc := aturi_roundtrip did NSIDGrinder b.rkey hdid (by decide) hrk
  have hn : goStr (jsonNormRec (GrinderToRecord b)) "name" = b.name := by
    rw [goStr_jsonNormRec]
    simp [goStr, GrinderToRecord, recGet]
  have hct : reqTime (jsonNormRec (GrinderToRecord b)) = .ok b.createdAt := by
    unfold reqTime
    rw [recGet_jsonNormRec]
    have hcg : recGet (GrinderToRecord b) "createdAt"
        = some (.str (timeFormat b.createdAt)) := by
      simp [GrinderToRecord, recGet]
    rw [hcg]
    simp [jsonNorm, timeParse, timeFormat, hts]
  have hgt : goStr (jsonNormRec (GrinderToRecord b)) "grinderType" = b.grinderType := by
    rw [goStr_jsonNormRec]
    by_cases h : b.grinderType = "" <;>
      simp [goStr, GrinderToRecord, recGet, recGet_optField_ne, recGet_optField_eq, h]
  have hbt : goStr (jsonNormRec (GrinderToRecord b)) "burrType" = b.burrType := by
    rw [goStr_jsonNormRec]
    by_cases h : b.burrType = "" <;>
      simp [goStr, GrinderToRecord, recGet, recGet_optField_ne, recGet_optField_eq, h]
  have hnt : goStr (jsonNormRec (GrinderToRecord b)) "notes" = b.notes := by
    rw [goStr_jsonNormRec]
    by_cases h : b.notes = "" <;>
      simp [goStr, GrinderToRecord, recGet, recGet_optField_ne, recGet_optField_eq, h]
  unfold RecordToGrinder rkeyFromURI
  rw [if_neg (buildATURI_ne_empty did NSIDGrinder b.rkey), hloc, hn, hct]
  simp [hname, hgt, hbt, hnt]

/-- Round trip for the Brewer codec. -/
theorem roundtripBrewer (b : Brewer) (did : String)
    (hname : b.name ≠ "") (hts : isRFC3339 b.createdAt = true)
    (hdid : didOK did.data = true) (hrk : ValidateRKey b.rkey = true) :
    RecordToBrewer (jsonNormRec (BrewerToRecord b)) (BuildATURI did NSIDBrewer b.rkey)
      = .ok b := by
  have hloc := aturi_roundtrip did NSIDBrewer b.rkey hdid (by decide) hrk
  have hn : goStr (jsonNormRec (BrewerToRecord b)) "name" = b.name := by
    rw [goStr_jsonNormRec]
    simp [goStr, BrewerToRecord, recGet]
  have hct : reqTime (jsonNormRec (BrewerToRecord b)) = .ok b.createdAt := by
    unfold reqTime
    rw [recGet_jsonNormRec]
    have hcg : recGet (BrewerToRecord b) "createdAt"
        = some (.str (timeFormat b.createdAt)) := by
      simp [BrewerToRecord, recGet]
    rw [hcg]
    simp [jsonNorm, timeParse, timeFormat, hts]
  have hd : goStr (jsonNormRec (BrewerToRecord b)) "description" = b.description := by
    rw [goStr_jsonNormRec]
    by_cases h : b.description = "" <;>
      simp [goStr, BrewerToRecord, recGet, recGet_optField_ne, recGet_optField_eq, h]
  unfold RecordToBrewer rkeyFromURI
  rw [if_neg (buildATURI_ne_empty did NSIDBrewer b.rkey), hloc, hn, hct]
  simp [hname, hd]

/-- Round trip for the Brew codec after JSON normalization. The record key
comes from the locator; temperature round-trips to one-decimal precision
(truncation of tenths); pours are renumbered positionally with zeroed
timestamps; reference keys and joined objects are outside the codec. -/
theorem roundtripBrew (b : Brew) (beanURI grinderURI brewerURI did : String) (r : Rec)
    (henc : BrewToRecord b beanURI grinderURI brewerURI = .ok r)
    (hts : isRFC3339 b.createdAt = true)
    (hdid : didOK did.data = true) (hrk : ValidateRKey b.rkey = true)
    (htemp : 0 ≤ b.temperature) (hwa : 0 ≤ b.waterAmount) (hca : 0 ≤ b.coffeeAmount)
    (hsec : 0 ≤ b.timeSeconds) (hrat : 0 ≤ b.rating) :
    RecordToBrew (jsonNormRec r) (BuildATURI did NSIDBrew b.rkey)
      = .ok { b with
              beanRKey := "", grinderRKey := "", brewerRKey := "",
              temperature := ((⌊b.temperature * 10⌋ : Int) : ℚ) / 10,
              bean := none, grinderObj := none, brewerObj := none,
              pours := renumberPours 0 b.pours } := by
  have hbne : beanURI ≠ "" := by
    intro h
    rw [BrewToRecord, if_pos h] at henc
    exact absurd henc (by simp)
  rw [BrewToRecord, if_neg hbne] at henc
  have hr : r = brewRecFields b beanURI grinderURI brewerURI :=
    ((Except.ok.injEq _ _).mp henc).symm
  subst hr
  have hloc := aturi_roundtrip did NSIDBrew b.rkey hdid (by decide) hrk
  have hbeanref : goStr (jsonNormRec (brewRecFields b beanURI grinderURI brewerURI))
      "beanRef" = beanURI := by
    rw [goStr_jsonNormRec]
    simp [goStr, brewRecFields, recGet]
  have hct : reqTime (jsonNormRec (brewRecFields b beanURI grinderURI brewerURI))
      = .ok b.createdAt := by
    unfold reqTime
    rw [recGet_jsonNormRec]
    have hcg : recGet (brewRecFields b beanURI grinderURI brewerURI) "createdAt"
        = some (.str (timeFormat b.createdAt)) := by
      simp [brewRecFields, recGet]
    rw [hcg]
    simp [jsonNorm, timeParse, timeFormat, hts]
  have hmethod : goStr (jsonNormRec (brewRecFields b beanURI grinderURI brewerURI))
      "method" = b.method := by
    rw [goStr_jsonNormRec]
    by_cases h : b.method = "" <;>
      simp [goStr, brewRecFields, recGet, recGet_optField_ne, recGet_optField_eq, h]
  have hgs : goStr (jsonNormRec (brewRecFields b beanURI grinderURI brewerURI))
      "grindSize" = b.grindSize := by
    rw [goStr_jsonNormRec]
    by_cases h : b.grindSize = "" <;>
      simp [goStr, brewRecFields, recGet, recGet_optField_ne, recGet_optField_eq, h]
  have htn : goStr (jsonNormRec (brewRecFields b beanURI grinderURI brewerURI))
      "tastingNotes" = b.tastingNotes := by
    rw [goStr_jsonNormRec]
    by_cases h : b.tastingNotes = "" <;>
      simp [goStr, brewRecFields, recGet, recGet_optField_ne, recGet_optField_eq, h]
  have htempf : tempField (jsonNormRec (brewRecFields b beanURI grinderURI brewerURI))
      = ((⌊b.temperature * 10⌋ : Int) : ℚ) / 10 := by
    unfold tempField
    rw [recGet_jsonNormRec]
    by_cases h : 0 < b.temperature
    · have hcg : recGet (brewRecFields b beanURI grinderURI brewerURI) "temperature"
          = some (.int (goTrunc (b.temperature * 10))) := by
        simp [brewRecFields, recGet, recGet_optField_ne, recGet_optField_eq, h]
      rw [hcg, goTrunc_nonneg _ (mul_nonneg htemp (by norm_num))]
      rfl
    · have ht0 : b.temperature = 0 := le_antisymm (not_lt.mp h) htemp
      have hcg : recGet (brewRecFields b beanURI grinderURI brewerURI) "temperature"
          = none := by
        simp [brewRecFields, recGet, recGet_optField_ne, recGet_optField_eq, h]
      rw [hcg, ht0]
      show (0 : ℚ) = ((⌊(0 : ℚ) * 10⌋ : Int) : ℚ) / 10
      norm_num
  have hwaf : goIntField (jsonNormRec (brewRecFields b beanURI grinderURI brewerURI))
      "waterAmount" = b.waterAmount := by
    unfold goIntField
    rw [recGet_jsonNormRec]
    by_cases h : 0 < b.waterAmount
    · have hcg : recGet (brewRecFields b beanURI grinderURI brewerURI) "waterAmount"
          = some (.int b.waterAmount) := by
        simp [brewRecFields, recGet, recGet_optField_ne, recGet_optField_eq, h]
      rw [hcg]
      simp [jsonNorm, goTrunc_intCast]
    · have h0 : b.waterAmount = 0 := le_antisymm (not_lt.mp h) hwa
      have hcg : recGet (brewRecFields b beanURI grinderURI brewerURI) "waterAmount"
          = none := by
        simp [brewRecFields, recGet, recGet_optField_ne, recGet_optField_eq, h]
      rw [hcg]
      simp [h0]
  have hcaf : goIntField (jsonNormRec (brewRecFields b beanURI grinderURI brewerURI))
      "coffeeAmount" = b.coffeeAmount := by
    unfold goIntField
    rw [recGet_jsonNormRec]
    by_cases h : 0 < b.coffeeAmount
    · have hcg : recGet (brewRecFields b beanURI grinderURI brewerURI) "coffeeAmount"
          = some (.int b.coffeeAmount) := by
        simp [brewRecFields, recGet, recGet_optField_ne, recGet_optField_eq, h]
      rw [hcg]
      simp [jsonNorm, goTrunc_intCast]
    · have h0 : b.coffeeAmount = 0 := le_antisymm (not_lt.mp h) hca
      have hcg : recGet (brewRecFields b beanURI grinderURI brewerURI) "coffeeAmount"
          = none := by
        simp [brewRecFields, recGet, recGet_optField_ne, recGet_optField_eq, h]
      rw [hcg]
      simp [h0]
  have hsecf : goIntField (jsonNormRec (brewRecFields b beanURI grinderURI brewerURI))
      "timeSeconds" = b.timeSeconds := by
    unfold goIntField
    rw [recGet_jsonNormRec]
    by_cases h : 0 < b.timeSeconds
    · have hcg : recGet (brewRecFields b beanURI grinderURI brewerURI) "timeSeconds"
          = some (.int b.timeSeconds) := by
        simp [brewRecFields, recGet, recGet_optField_ne, recGet_optField_eq, h]
      rw [hcg]
      simp [jsonNorm, goTrunc_intCast]
    · have h0 : b.timeSeconds = 0 := le_antisymm (not_lt.mp h) hsec
      have hcg : recGet (brewRecFields b beanURI grinderURI brewerURI) "timeSeconds"
          = none := by
        simp [brewRecFields, recGet, recGet_optField_ne, recGet_optField_eq, h]
      rw [hcg]
      simp [h0]
  have hratf : goIntField (jsonNormRec (brewRecFields b beanURI grinderURI brewerURI))
      "rating" = b.rating := by
    unfold goIntField
    rw [recGet_jsonNormRec]
    by_cases h : 0 < b.rating
    · have hcg : recGet (brewRecFields b beanURI grinderURI brewerURI) "rating"
          = some (.int b.rating) := by
        simp [brewRecFields, recGet, recGet_optField_ne, recGet_optField_eq, h]
      rw [hcg]
      simp [jsonNorm, goTrunc_intCast]
    · have h0 : b.rating = 0 := le_antisymm (not_lt.mp h) hrat
      have hcg : recGet (brewRecFields b beanURI grinderURI brewerURI) "rating"
          = none := by
        simp [brewRecFields, recGet, recGet_optField_ne, recGet_optField_eq, h]
      rw [hcg]
      simp [h0]
  have hpours : poursField (jsonNormRec (brewRecFields b beanURI grinderURI brewerURI))
      = renumberPours 0 b.pours := by
    unfold poursField
    rw [recGet_jsonNormRec]
    by_cases h : b.pours = []
    · have hcg : recGet (brewRecFields b beanURI grinderURI brewerURI) "pours"
          = none := by
        simp [brewRecFields, recGet, recGet_optField_ne, recGet_optField_eq, h]
      rw [hcg]
      simp [h, renumberPours]
    · have hcg : recGet (brewRecFields b beanURI grinderURI brewerURI) "pours"
          = some (.mapArr (b.pours.map fun p =>
              [("waterAmount", Val.int p.waterAmount),
               ("timeSeconds", Val.int p.timeSeconds)])) := by
        simp [brewRecFields, recGet, recGet_optField_ne, recGet_optField_eq, h]
      rw [hcg]
      exact decodePours_norm b.pours 0
  unfold RecordToBrew rkeyFromURI
  rw [if_neg (buildATURI_ne_empty did NSIDBrew b.rkey), hloc, hbeanref, hct]
  simp [hbne, hmethod, hgs, htn, htempf, hwaf, hcaf, hsecf, hratf, hpours]

/-- Brew used in the C1 counterexample and witness. -/
def cexBrew : Brew :=
  { rkey := "b1", beanRKey := "", method := "V60", temperature := 93.5
  , waterAmount := 300, coffeeAmount := 0, timeSeconds := 180, grindSize := "Medium"
  , grinderRKey := "", brewerRKey := "", tastingNotes := "Fruity", rating := 4
  , createdAt := "2025-01-10T12:00:00Z", bean := none, grinderObj := none
  , brewerObj := none
  , pours := [{ pourNumber := 0, waterAmount := 50, timeSeconds := 30, createdAt := "" },
              { pourNumber := 0, waterAmount := 100, timeSeconds := 60, createdAt := "" }] }

/-- Brew used in the C1 counterexample: identical to `cexBrew` except
that its temperature is unset, keeping the evaluation free of rational
normalization. -/
def cexBrew0 : Brew :=
  { rkey := "b1", beanRKey := "", method := "V60", temperature := 0
  , waterAmount := 300, coffeeAmount := 0, timeSeconds := 180, grindSize := "Medium"
  , grinderRKey := "", brewerRKey := "", tastingNotes := "Fruity", rating := 4
  , createdAt := "2025-01-10T12:00:00Z", bean := none, grinderObj := none
  , brewerObj := none
  , pours := [{ pourNumber := 0, waterAmount := 50, timeSeconds := 30, createdAt := "" },
              { pourNumber := 0, waterAmount := 100, timeSeconds := 60, createdAt := "" }] }

set_option maxHeartbeats 2000000 in
/-- C1 counterexample: the direct composition
`RecordToBrew (BrewToRecord e ...) locator` — with no JSON pass in
between — decodes waterAmount 300 as 0 and loses both pours, because the
encoder writes Go `int` values and a `[]map[string]interface` pours
array while the decoder asserts `float64` and `[]interface`. So the
round trip does not reproduce every non-temperature field. -/
theorem record_codec_roundtrip_cex :
    ((BrewToRecord cexBrew0 (BuildATURI demoDID NSIDBean "x1") "" "").bind
        (fun r => RecordToBrew r (BuildATURI demoDID NSIDBrew "b1"))).map
        (fun b => (b.waterAmount, b.pours))
      = .ok (0, [])
    ∧ cexBrew0.waterAmount = 300 ∧ cexBrew0.pours ≠ [] := by
  refine ⟨rfl, rfl, by decide⟩

/-- C1 (amended): for every entity kind, decoding the encoded record —
after the JSON marshal/unmarshal normalization that separates a write
from a read — reproduces every field the codec persists; the record key
is recovered from the locator, reference keys and joined display objects
are outside the codec, numeric fields must be nonnegative (negative
values are omitted on encode and decode to zero), temperature
round-trips only to one-decimal precision, and pours come back
positionally renumbered with zeroed timestamps. -/
theorem record_codec_roundtrip :
    (∀ (b : Bean) (u did : String), b.name ≠ "" → isRFC3339 b.createdAt = true →
      didOK did.data = true → ValidateRKey b.rkey = true →
      RecordToBean (jsonNormRec (BeanToRecord b u)) (BuildATURI did NSIDBean b.rkey)
        = .ok { b with roasterRKey := "", roaster := none })
    ∧ (∀ (b : Roaster) (did : String), b.name ≠ "" → isRFC3339 b.createdAt = true →
      didOK did.data = true → ValidateRKey b.rkey = true →
      RecordToRoaster (jsonNormRec (RoasterToRecord b)) (BuildATURI did NSIDRoaster b.rkey)
        = .ok b)
    ∧ (∀ (b : Grinder) (did : String), b.name ≠ "" → isRFC3339 b.createdAt = true →
      didOK did.data = true → ValidateRKey b.rkey = true →
      RecordToGrinder (jsonNormRec (GrinderToRecord b)) (BuildATURI did NSIDGrinder b.rkey)
        = .ok b)
    ∧ (∀ (b : Brewer) (did : String), b.name ≠ "" → isRFC3339 b.createdAt = true →
      didOK did.data = true → ValidateRKey b.rkey = true →
      RecordToBrewer (jsonNormRec (BrewerToRecord b)) (BuildATURI did NSIDBrewer b.rkey)
        = .ok b)
    ∧ (∀ (b : Brew) (beanURI grinderURI brewerURI did : String) (r : Rec),
      BrewToRecord b beanURI grinderURI brewerURI = .ok r →
      isRFC3339 b.createdAt = true →
      didOK did.data = true → ValidateRKey b.rkey = true →
      0 ≤ b.temperature → 0 ≤ b.waterAmount → 0 ≤ b.coffeeAmount →
      0 ≤ b.timeSeconds → 0 ≤ b.rating →
      RecordToBrew (jsonNormRec r) (BuildATURI did NSIDBrew b.rkey)
        = .ok { b with
                beanRKey := "", grinderRKey := "", brewerRKey := "",
                temperature := ((⌊b.temperature * 10⌋ : Int) : ℚ) / 10,
                bean := none, grinderObj := none, brewerObj := none,
                pours := renumberPours 0 b.pours }) :=
  ⟨roundtripBean, roundtripRoaster, roundtripGrinder, roundtripBrewer, roundtripBrew⟩

set_option maxHeartbeats 4000000 in
/-- C1 witness: the amended round trip at a concrete Brew (temperature
93.5, two pours) and a concrete Bean. -/
theorem record_codec_roundtrip_witness :
    RecordToBrew
        (jsonNormRec (brewRecFields cexBrew (BuildATURI demoDID NSIDBean "x1") "" ""))
        (BuildATURI demoDID NSIDBrew "b1")
      = .ok { cexBrew with
              beanRKey := "", grinderRKey := "", brewerRKey := "",
              temperature := ((⌊cexBrew.temperature * 10⌋ : Int) : ℚ) / 10,
              bean := none, grinderObj := none, brewerObj := none,
              pours := renumberPours 0 cexBrew.pours }
    ∧ RecordToBean (jsonNormRec (BeanToRecord demoBean "")) (BuildATURI demoDID NSIDBean "x1")
      = .ok { demoBean with roasterRKey := "", roaster := none } :=
  ⟨record_codec_roundtrip.2.2.2.2 cexBrew (BuildATURI demoDID NSIDBean "x1") "" ""
      demoDID (brewRecFields cexBrew (BuildATURI demoDID NSIDBean "x1") "" "")
      (by rfl) (by decide) (by decide) (by decide)
      (by norm_num [cexBrew]) (by decide) (by decide) (by decide) (by decide),
   record_codec_roundtrip.1 demoBean "" demoDID
      (by decide) (by decide) (by decide) (by decide)⟩
